import Mathlib

/-! Verification development for the AI_DSpy hybrid RAG+SQL agent.
    Shallow embedding of the relevant parts of
    `src/agent/graph_hybrid.py`, `src/agent/dspy_signatures.py`,
    `src/agent/rag/retrieval.py` and `src/agent/tools/sqlite_tool.py`,
    followed by theorems settling the specification claims.
    Python machine floats are modelled as exact rationals, Python lists as
    `List`, Python `None` via `Option`; text manipulation is modelled over
    `List Char` on the ASCII fragment the agent actually works with. -/

section AIDSpy

attribute [local semireducible] Rat.add Rat.sub Rat.mul Rat.inv Rat.ofScientific

/-! ## Basic text utilities (Python string operations) -/

/-- ASCII lower-casing of one character (Python `str.lower` on the ASCII
fragment manipulated by the agent). -/
def pyLowerChar (c : Char) : Char :=
  if 'A' ≤ c ∧ c ≤ 'Z' then Char.ofNat (c.toNat + 32) else c

/-- ASCII upper-casing of one character (Python `str.upper` on the ASCII
fragment manipulated by the agent). -/
def pyUpperChar (c : Char) : Char :=
  if 'a' ≤ c ∧ c ≤ 'z' then Char.ofNat (c.toNat - 32) else c

/-- Python `str.lower`. -/
def pyLower (s : String) : String := ⟨s.data.map pyLowerChar⟩

/-- Python `str.upper`. -/
def pyUpper (s : String) : String := ⟨s.data.map pyUpperChar⟩

/-- Python whitespace (the class matched by `\s` and stripped by `str.strip`). -/
def pyIsSpace (c : Char) : Bool :=
  c == ' ' || c == '\t' || c == '\n' || c == '\r' || c == '\x0b' || c == '\x0c'

/-- Containment of `pat` as a contiguous sublist of a character list
(Python `pat in hay` on strings). -/
def containsSub (pat : List Char) : List Char → Bool
  | [] => pat.isEmpty
  | c :: t => pat.isPrefixOf (c :: t) || containsSub pat t

/-- Python `pat in hay` for strings. -/
def pyContains (hay pat : String) : Bool := containsSub pat.data hay.data

/-- One fuel-indexed step list for Python `str.replace`: replaces every
non-overlapping occurrence of `pat`, scanning left to right.  Fuel equal to
the length of the scanned list suffices because `pat` is nonempty at every
call site (each step consumes at least one character). -/
def replaceFuel (pat rep : List Char) : Nat → List Char → List Char
  | 0, hay => hay
  | _ + 1, [] => []
  | f + 1, c :: t =>
    if pat.isPrefixOf (c :: t) then
      rep ++ replaceFuel pat rep f (List.drop (pat.length - 1) t)
    else
      c :: replaceFuel pat rep f t

/-- Python `s.replace(pat, rep)` (all non-overlapping occurrences, left to
right; every caller passes a nonempty `pat`). -/
def pyReplace (s pat rep : String) : String :=
  ⟨replaceFuel pat.data rep.data s.data.length s.data⟩

/-- Case-insensitive prefix test (ASCII case folding, as used by
`re.IGNORECASE` on the agent's ASCII SQL text). -/
def isPrefixOfCI : List Char → List Char → Bool
  | [], _ => true
  | _ :: _, [] => false
  | p :: ps, c :: cs => (pyLowerChar p == pyLowerChar c) && isPrefixOfCI ps cs

/-- The character class `\w` of Python `re` on the agent's ASCII text. -/
def isWordChar (c : Char) : Bool := c.isAlpha || c.isDigit || c == '_'

/-- Whether the last character of a word is a word character (used to carry
the word-boundary state past a replaced match). -/
def lastCharIsWord (w : List Char) : Bool :=
  match w.getLast? with
  | some d => isWordChar d
  | none => false

/-- Fuel-indexed scanner for `re.sub(r"\bword\b", rep, s)`: replaces every
occurrence of `word` that stands between word boundaries, scanning left to
right and continuing after each match, exactly as `re.sub` does.  `prevW`
records whether the previous character of the original text is a word
character (`false` at the start of the string).  All words substituted this
way by the agent start and end in word characters, so the boundary test
reduces to the neighbouring characters not being word characters.  Fuel equal
to the length of the scanned list suffices (each step consumes at least one
character since the substituted words are nonempty). -/
def subWordFuel (ci : Bool) (word rep : List Char) : Nat → Bool → List Char → List Char
  | 0, _, hay => hay
  | _ + 1, _, [] => []
  | f + 1, prevW, c :: t =>
    let matched := if ci then isPrefixOfCI word (c :: t) else word.isPrefixOf (c :: t)
    let rest := List.drop (word.length - 1) t
    let nextOk := match rest with
      | [] => true
      | d :: _ => !(isWordChar d)
    if !prevW && matched && nextOk && !word.isEmpty then
      rep ++ subWordFuel ci word rep f (lastCharIsWord word) rest
    else
      c :: subWordFuel ci word rep f (isWordChar c) t

/-- `re.sub(r"\bword\b", rep, s)` (with `re.IGNORECASE` when `ci` is true). -/
def subWordBound (ci : Bool) (word rep s : String) : String :=
  ⟨subWordFuel ci word.data rep.data s.data.length false s.data⟩

/-- Matcher for the gibberish pattern `[a-z]-\s*'(?:Instance|0)'` of
`NLToSQLModule.forward` (src/agent/dspy_signatures.py line 166), at the head
of the list: on success returns the rest of the input after the match. -/
def matchGibberish : List Char → Option (List Char)
  | c :: '-' :: rest =>
    if 'a' ≤ c && c ≤ 'z' then
      match rest.dropWhile pyIsSpace with
      | '\'' :: r3 =>
        if ("Instance'".data).isPrefixOf r3 then some (r3.drop 9)
        else if ("0'".data).isPrefixOf r3 then some (r3.drop 2)
        else none
      | _ => none
    else none
  | _ => none

/-- Fuel-indexed scanner for `re.sub` with a fixed replacement text: tries the
matcher at every position, left to right, continuing after each match.  Fuel
equal to the length of the scanned list suffices because every matcher used
consumes at least one character. -/
def scanSubFuel (matcher : List Char → Option (List Char)) (rep : List Char) :
    Nat → List Char → List Char
  | 0, hay => hay
  | _ + 1, [] => []
  | f + 1, c :: t =>
    match matcher (c :: t) with
    | some rest => rep ++ scanSubFuel matcher rep f rest
    | none => c :: scanSubFuel matcher rep f t

/-- The rewrite `re.sub(r"[a-z]-\s*'(?:Instance|0)'", "o.OrderDate", sql)` of
`NLToSQLModule.forward` (src/agent/dspy_signatures.py line 166). -/
def gibberishFix (s : String) : String :=
  ⟨scanSubFuel matchGibberish "o.OrderDate".data s.data.length s.data⟩

/-! ## The deterministic typo-fix passes (dspy_signatures.py) -/

/-- Steps 1-3 of the Normalizer: the deterministic typo-fix substitutions of
`NLToSQLModule.forward`, src/agent/dspy_signatures.py lines 154-169 (keyword
misspellings, multi-word table-name quoting, placeholder/gibberish token
rewriting), in source order. -/
def normTypoFix123 (sql : String) : String :=
  let s := pyReplace sql "strftForms" "strftime"
  let s := pyReplace s "strftTime" "strftime"
  let s := pyReplace s "BETWEWEN" "BETWEEN"
  let s := pyReplace s "BETWEInstance" "BETWEEN"
  let s := pyReplace s "`Order Details`" "\"Order Details\""
  let s := subWordBound false "OrderDetails" "\"Order Details\"" s
  let s := subWordBound true "order_details" "\"Order Details\"" s
  let s := gibberishFix s
  subWordBound false "Instance" "0" s

/-- The deterministic typo-fix pass applied by `SQLRepairModule.forward` to
the failed query before deciding on the fast path,
src/agent/dspy_signatures.py lines 271-284: literal substitutions for the
strftime and BETWEEN misspellings and the backtick-quoted table name, a plain
(boundary-free, case-sensitive) substring replacement of `OrderDetails`, and
the standalone `Instance` word rewrite. -/
def repairTypoFix (q : String) : String :=
  let s := pyReplace q "strftForms" "strftime"
  let s := pyReplace s "strftTime" "strftime"
  let s := pyReplace s "BETWEWEN" "BETWEEN"
  let s := pyReplace s "BETWEInstance" "BETWEEN"
  let s := pyReplace s "`Order Details`" "\"Order Details\""
  let s := pyReplace s "OrderDetails" "\"Order Details\""
  subWordBound false "Instance" "0" s

/-! ## Python split / strip and the code-fence extraction -/

/-- Python `str.strip()` (default whitespace stripping at both ends). -/
def pyStrip (s : String) : String :=
  ⟨((s.data.dropWhile pyIsSpace).reverse.dropWhile pyIsSpace).reverse⟩

/-- Fuel-indexed worker for Python `str.split(sep)` with a nonempty separator:
splits at every non-overlapping occurrence of `sep`, left to right.  `cur`
accumulates the current piece in reverse.  Fuel equal to the length of the
scanned list suffices because each step consumes at least one character. -/
def splitFuel (sep : List Char) : Nat → List Char → List Char → List (List Char)
  | 0, cur, hay => [cur.reverse ++ hay]
  | _ + 1, cur, [] => [cur.reverse]
  | f + 1, cur, c :: t =>
    if sep.isPrefixOf (c :: t) then
      cur.reverse :: splitFuel sep f [] (List.drop (sep.length - 1) t)
    else
      splitFuel sep f (c :: cur) t

/-- Python `s.split(sep)` for a nonempty separator. -/
def pySplit (s sep : String) : List String :=
  (splitFuel sep.data s.data.length [] s.data).map (fun l => ⟨l⟩)

/-- The Markdown code-fence extraction shared by `NLToSQLModule.forward`
(src/agent/dspy_signatures.py lines 148-152) and `SQLRepairModule.forward`
(lines 297-301): strip the reply, then when a fence marker occurs take the
text between the first fence pair and strip it.  The `[1]` index is guarded
by the containment check, so the `getD` default is never consulted. -/
def stripCodeFences (raw : String) : String :=
  let sql := pyStrip raw
  if pyContains sql "```sql" then
    pyStrip ((pySplit ((pySplit sql "```sql").getD 1 "") "```").getD 0 "")
  else if pyContains sql "```" then
    pyStrip ((pySplit ((pySplit sql "```").getD 1 "") "```").getD 0 "")
  else sql

/-! ## SQLRepairModule (src/agent/dspy_signatures.py lines 262-308) -/

/-- The post-processing `SQLRepairModule.forward` applies to the repair
oracle's raw reply (src/agent/dspy_signatures.py lines 296-307): code-fence
extraction followed by only three of the typo-fix substitutions (the two
strftime misspellings and the backtick-quoted table name). -/
def repairOraclePostFix (raw : String) : String :=
  let sql := stripCodeFences raw
  let sql := pyReplace sql "strftForms" "strftime"
  let sql := pyReplace sql "strftTime" "strftime"
  pyReplace sql "`Order Details`" "\"Order Details\""

/-- `SQLRepairModule.forward` (src/agent/dspy_signatures.py lines 269-308),
with the repair LM (`dspy.Predict(RepairSQL)`) abstracted as the collaborator
function `lm` from (original query, error message, schema) to its raw text
reply.  First the deterministic typo-fix pass runs on the failed query; if it
changed the text and the error message mentions a syntax or name-resolution
problem, the fixed text is returned without consulting `lm`; otherwise `lm`
is invoked on the original query and its reply is post-processed by
`repairOraclePostFix`. -/
def sqlRepairForward (lm : String → String → String → String)
    (originalQuery errorMessage schema : String) : String :=
  let fixedQuery := repairTypoFix originalQuery
  if fixedQuery != originalQuery &&
      (pyContains (pyLower errorMessage) "syntax" ||
        pyContains (pyLower errorMessage) "no such") then
    fixedQuery
  else
    repairOraclePostFix (lm originalQuery errorMessage schema)

/-! ## The month-range collapse rewrite of the Normalizer
    (src/agent/dspy_signatures.py lines 171-179) -/

/-- Case-insensitive literal matcher: consumes `lit` (ASCII case folded) at
the head and returns the rest. -/
def eatLitCI (lit l : List Char) : Option (List Char) :=
  if isPrefixOfCI lit l then some (l.drop lit.length) else none

/-- Matcher for `\s+` (at least one whitespace character). -/
def eatWS1 : List Char → Option (List Char)
  | [] => none
  | c :: t => if pyIsSpace c then some (t.dropWhile pyIsSpace) else none

/-- Matcher for the pattern
`strftime\('%Y-%m',\s*([^)]+)\)\s+BETWEEN\s+'(\d{4})-(\d{2})-\d{2}'\s+AND\s+'[^']+?'`
(with `re.IGNORECASE`) at the head of the list, returning the replacement
text `strftime('%Y-%m', \1) = '\2-\3'` and the rest of the input.  Note that
the pattern captures the year and month of the FIRST endpoint only; the
second quoted date is matched by the wildcard `[^']+?`. -/
def matchMonthBetween (l : List Char) : Option (List Char × List Char) :=
  match eatLitCI "strftime('%Y-%m',".data l with
  | none => none
  | some r1 =>
    let r2 := r1.dropWhile pyIsSpace
    let g1 := r2.takeWhile (fun c => c != ')')
    if g1.isEmpty then none else
    match r2.drop g1.length with
    | ')' :: r3 =>
      match eatWS1 r3 with
      | none => none
      | some r4 =>
        match eatLitCI "BETWEEN".data r4 with
        | none => none
        | some r5 =>
          match eatWS1 r5 with
          | none => none
          | some r6 =>
            match r6 with
            | '\'' :: r7 =>
              let y := r7.take 4
              if y.length == 4 && y.all Char.isDigit then
                match r7.drop 4 with
                | '-' :: r8 =>
                  let mo := r8.take 2
                  if mo.length == 2 && mo.all Char.isDigit then
                    match r8.drop 2 with
                    | '-' :: r9 =>
                      let dd := r9.take 2
                      if dd.length == 2 && dd.all Char.isDigit then
                        match r9.drop 2 with
                        | '\'' :: r10 =>
                          match eatWS1 r10 with
                          | none => none
                          | some r11 =>
                            match eatLitCI "AND".data r11 with
                            | none => none
                            | some r12 =>
                              match eatWS1 r12 with
                              | none => none
                              | some r13 =>
                                match r13 with
                                | '\'' :: r14 =>
                                  let u := r14.takeWhile (fun c => c != '\'')
                                  if u.isEmpty then none else
                                  match r14.drop u.length with
                                  | '\'' :: r15 =>
                                    some ("strftime('%Y-%m', ".data ++ g1 ++
                                      ") = '".data ++ y ++ ['-'] ++ mo ++ ['\''], r15)
                                  | _ => none
                                | _ => none
                        | _ => none
                      else none
                    | _ => none
                  else none
                | _ => none
              else none
            | _ => none
    | _ => none

/-- Fuel-indexed scanner for `re.sub` with a match-dependent replacement:
tries the matcher at every position, left to right, continuing after each
match (every matcher used consumes at least one character, so fuel equal to
the length of the scanned list suffices). -/
def scanSubCFuel (matcher : List Char → Option (List Char × List Char)) :
    Nat → List Char → List Char
  | 0, hay => hay
  | _ + 1, [] => []
  | f + 1, c :: t =>
    match matcher (c :: t) with
    | some (rep, rest) => rep ++ scanSubCFuel matcher f rest
    | none => c :: scanSubCFuel matcher f t

/-- The Normalizer rewrite collapsing a `strftime('%Y-%m', ...) BETWEEN`
date-range comparison to an equality on a year-month string
(`NLToSQLModule.forward`, src/agent/dspy_signatures.py lines 174-179). -/
def fixMonthBetween (sql : String) : String :=
  ⟨scanSubCFuel matchMonthBetween sql.data.length sql.data⟩

/-! ## The division-by-order-count removal rewrite of the Normalizer
    (src/agent/dspy_signatures.py lines 225-248) -/

/-- The aliases for which the division removal is skipped
(src/agent/dspy_signatures.py lines 236 and 247). -/
def aovAliases : List (List Char) :=
  ["aov".data, "averageordervalue".data, "avgordervalue".data]

/-- Matcher for the shared pattern part
`\s*/\s*COUNT\s*\(\s*DISTINCT\s+\w+\.OrderID\s*\)` (with `re.IGNORECASE`) at
the head of the list, returning the rest after the closing parenthesis. -/
def matchDivCore (l : List Char) : Option (List Char) :=
  match l.dropWhile pyIsSpace with
  | '/' :: r1 =>
    match eatLitCI "COUNT".data (r1.dropWhile pyIsSpace) with
    | none => none
    | some r3 =>
      match r3.dropWhile pyIsSpace with
      | '(' :: r5 =>
        match eatLitCI "DISTINCT".data (r5.dropWhile pyIsSpace) with
        | none => none
        | some r7 =>
          match eatWS1 r7 with
          | none => none
          | some r8 =>
            let w := r8.takeWhile isWordChar
            if w.isEmpty then none else
            match r8.drop w.length with
            | '.' :: r9 =>
              match eatLitCI "OrderID".data r9 with
              | none => none
              | some r10 =>
                match r10.dropWhile pyIsSpace with
                | ')' :: r12 => some r12
                | _ => none
            | _ => none
      | _ => none
  | _ => none

/-- Matcher for the tail `\s+AS\s+(\w+)` returning the alias and the rest. -/
def matchAsAlias (l : List Char) : Option (List Char × List Char) :=
  match eatWS1 l with
  | none => none
  | some r13 =>
    match eatLitCI "AS".data r13 with
    | none => none
    | some r14 =>
      match eatWS1 r14 with
      | none => none
      | some r15 =>
        let a := r15.takeWhile isWordChar
        if a.isEmpty then none else some (a, r15.drop a.length)

/-- Index of the last occurrence of `ch` in `l` (Python `str.rfind`; every
caller guarantees that `ch` occurs, so the 0 default is never consulted). -/
def lastIdxOf (ch : Char) (l : List Char) : Nat :=
  ((l.enum.filter (fun p => p.2 == ch)).getLast?.map (fun p => p.1)).getD 0

/-- Matcher-with-replacement for `pattern_round`
`\s*/\s*COUNT\s*\(\s*DISTINCT\s+\w+\.OrderID\s*\)\s*,\s*\d+\s*\)\s+AS\s+(\w+)`
(src/agent/dspy_signatures.py lines 231-240): when the alias is not an
average-like name, the matched text is replaced by its tail from the last
comma (keeping the ROUND precision `, 2) AS alias`); otherwise the match is
left unchanged. -/
def matchDivRoundRepl (l : List Char) : Option (List Char × List Char) :=
  match matchDivCore l with
  | none => none
  | some r12 =>
    match r12.dropWhile pyIsSpace with
    | ',' :: r14 =>
      let r15 := r14.dropWhile pyIsSpace
      let d := r15.takeWhile Char.isDigit
      if d.isEmpty then none else
      match (r15.drop d.length).dropWhile pyIsSpace with
      | ')' :: r17 =>
        match matchAsAlias r17 with
        | none => none
        | some (a, rest) =>
          let g0 := l.take (l.length - rest.length)
          if aovAliases.contains (a.map pyLowerChar) then some (g0, rest)
          else some (g0.drop (lastIdxOf ',' g0), rest)
      | _ => none
    | _ => none

/-- Matcher-with-replacement for `pattern_simple`
`\s*/\s*COUNT\s*\(\s*DISTINCT\s+\w+\.OrderID\s*\)\s+AS\s+(\w+)`
(src/agent/dspy_signatures.py lines 243-248): when the alias is not an
average-like name, the matched text is replaced by ` AS alias`; otherwise the
match is left unchanged. -/
def matchDivSimpleRepl (l : List Char) : Option (List Char × List Char) :=
  match matchDivCore l with
  | none => none
  | some r12 =>
    match matchAsAlias r12 with
    | none => none
    | some (a, rest) =>
      let g0 := l.take (l.length - rest.length)
      if aovAliases.contains (a.map pyLowerChar) then some (g0, rest)
      else some (" AS ".data ++ a, rest)

/-- The ROUND-case pass of the division removal (src/agent/dspy_signatures.py
lines 231-240). -/
def divRoundPass (sql : String) : String :=
  ⟨scanSubCFuel matchDivRoundRepl sql.data.length sql.data⟩

/-- The simple-case pass of the division removal
(src/agent/dspy_signatures.py lines 243-248). -/
def divSimplePass (sql : String) : String :=
  ⟨scanSubCFuel matchDivSimpleRepl sql.data.length sql.data⟩

/-- The complete division-by-distinct-order-count removal rewrite of the
Normalizer (src/agent/dspy_signatures.py lines 225-248): the ROUND-case pass
followed by the simple-case pass on its output. -/
def removeDivByOrderCount (sql : String) : String :=
  divSimplePass (divRoundPass sql)

/-- Whether the matcher succeeds at some position of the list (used to state
when a scanning substitution is the identity). -/
def anyMatchPos (matcher : List Char → Option (List Char × List Char)) :
    List Char → Bool
  | [] => false
  | c :: t => (matcher (c :: t)).isSome || anyMatchPos matcher t

/-! ## Python values and the JSON reply parser -/

/-- Python values as they flow through the agent: `None`, booleans, ints,
floats (modelled as exact rationals), strings, lists and string-keyed dicts. -/
inductive PyVal where
  | vNone : PyVal
  | vBool (b : Bool) : PyVal
  | vInt (n : Int) : PyVal
  | vFloat (q : ℚ) : PyVal
  | vStr (s : String) : PyVal
  | vList (xs : List PyVal) : PyVal
  | vDict (kvs : List (String × PyVal)) : PyVal

/-- JSON whitespace skipping. -/
def jsonSkipWs (l : List Char) : List Char :=
  l.dropWhile (fun c => c == ' ' || c == '\t' || c == '\n' || c == '\r')

/-- Value of one hexadecimal digit. -/
def hexVal (c : Char) : Option Nat :=
  if '0' ≤ c ∧ c ≤ '9' then some (c.toNat - 48)
  else if 'a' ≤ c ∧ c ≤ 'f' then some (c.toNat - 87)
  else if 'A' ≤ c ∧ c ≤ 'F' then some (c.toNat - 55)
  else none

/-- Fuel-indexed JSON string-body parser (after the opening quote): returns
the parsed string and the rest after the closing quote. -/
def jsonParseStringAux : Nat → List Char → List Char → Option (String × List Char)
  | 0, _, _ => none
  | f + 1, acc, l =>
    match l with
    | [] => none
    | '"' :: t => some (⟨acc.reverse⟩, t)
    | '\\' :: 'u' :: a :: b :: c :: d :: t =>
      match hexVal a, hexVal b, hexVal c, hexVal d with
      | some x, some y, some z, some w =>
        jsonParseStringAux f (Char.ofNat (((x * 16 + y) * 16 + z) * 16 + w) :: acc) t
      | _, _, _, _ => none
    | '\\' :: e :: t =>
      match e with
      | '"' => jsonParseStringAux f ('"' :: acc) t
      | '\\' => jsonParseStringAux f ('\\' :: acc) t
      | '/' => jsonParseStringAux f ('/' :: acc) t
      | 'b' => jsonParseStringAux f ('\x08' :: acc) t
      | 'f' => jsonParseStringAux f ('\x0c' :: acc) t
      | 'n' => jsonParseStringAux f ('\n' :: acc) t
      | 'r' => jsonParseStringAux f ('\r' :: acc) t
      | 't' => jsonParseStringAux f ('\t' :: acc) t
      | _ => none
    | c :: t => jsonParseStringAux f (c :: acc) t

/-- Numeric value of a list of decimal digit characters. -/
def natOfDigits (l : List Char) : Nat :=
  l.foldl (fun a c => a * 10 + (c.toNat - 48)) 0

/-- JSON number parser: strict JSON grammar, producing `vInt` for an integer
literal and `vFloat` for one with a fraction or exponent (exact rational
value; binary floating-point artifacts are outside the modelled fragment). -/
def jsonParseNumber (l : List Char) : Option (PyVal × List Char) :=
  let (neg, l1) : Bool × List Char :=
    match l with
    | '-' :: t => (true, t)
    | _ => (false, l)
  let ip := l1.takeWhile Char.isDigit
  if ip.isEmpty then none
  else if ip.length > 1 && ip.headD '0' == '0' then none
  else
    let r1 := l1.drop ip.length
    let ipv : Nat := natOfDigits ip
    let (fr, r2) : List Char × List Char :=
      match r1 with
      | '.' :: t => (t.takeWhile Char.isDigit, (t.dropWhile Char.isDigit))
      | _ => ([], r1)
    let hasFrac : Bool := match r1 with
      | '.' :: _ => true
      | _ => false
    if hasFrac && fr.isEmpty then none
    else
      let (hasExp, expNeg, ed, r3) : Bool × Bool × List Char × List Char :=
        match r2 with
        | 'e' :: '-' :: t => (true, true, t.takeWhile Char.isDigit, t.dropWhile Char.isDigit)
        | 'e' :: '+' :: t => (true, false, t.takeWhile Char.isDigit, t.dropWhile Char.isDigit)
        | 'e' :: t => (true, false, t.takeWhile Char.isDigit, t.dropWhile Char.isDigit)
        | 'E' :: '-' :: t => (true, true, t.takeWhile Char.isDigit, t.dropWhile Char.isDigit)
        | 'E' :: '+' :: t => (true, false, t.takeWhile Char.isDigit, t.dropWhile Char.isDigit)
        | 'E' :: t => (true, false, t.takeWhile Char.isDigit, t.dropWhile Char.isDigit)
        | _ => (false, false, [], r2)
      if hasExp && ed.isEmpty then none
      else
        let sign : ℚ := if neg then -1 else 1
        if hasFrac || hasExp then
          let base : ℚ := (ipv : ℚ) + (natOfDigits fr : ℚ) / ((10 : ℚ) ^ fr.length)
          let scaled : ℚ :=
            if hasExp then
              if expNeg then base / ((10 : ℚ) ^ natOfDigits ed)
              else base * ((10 : ℚ) ^ natOfDigits ed)
            else base
          some (.vFloat (sign * scaled), r3)
        else
          some (.vInt (if neg then -(ipv : Int) else (ipv : Int)), r3)

/-- Fuel-indexed parser for comma-separated JSON array items (after the first
non-`]` character), parameterised by the element parser. -/
def jsonSepItems (pElem : List Char → Option (PyVal × List Char)) :
    Nat → List PyVal → List Char → Option (PyVal × List Char)
  | 0, _, _ => none
  | f + 1, acc, l =>
    match pElem l with
    | none => none
    | some (v, r) =>
      match jsonSkipWs r with
      | ',' :: r2 => jsonSepItems pElem f (v :: acc) r2
      | ']' :: r2 => some (.vList (v :: acc).reverse, r2)
      | _ => none

/-- Fuel-indexed parser for comma-separated JSON object members (after the
first non-closing-brace character), parameterised by the value parser. -/
def jsonSepPairs (pElem : List Char → Option (PyVal × List Char)) :
    Nat → List (String × PyVal) → List Char → Option (PyVal × List Char)
  | 0, _, _ => none
  | f + 1, acc, l =>
    match jsonSkipWs l with
    | '"' :: t =>
      match jsonParseStringAux (t.length + 1) [] t with
      | none => none
      | some (k, r) =>
        match jsonSkipWs r with
        | ':' :: r2 =>
          match pElem r2 with
          | none => none
          | some (v, r3) =>
            match jsonSkipWs r3 with
            | ',' :: r4 => jsonSepPairs pElem f ((k, v) :: acc) r4
            | '\x7d' :: r4 => some (.vDict ((k, v) :: acc).reverse, r4)
            | _ => none
        | _ => none
    | _ => none

/-- Fuel-indexed JSON value parser; the fuel bounds the nesting depth, so
fuel equal to the input length plus one suffices. -/
def jsonParseValue : Nat → List Char → Option (PyVal × List Char)
  | 0, _ => none
  | f + 1, l =>
    let l := jsonSkipWs l
    match l with
    | '"' :: t => (jsonParseStringAux (t.length + 1) [] t).map (fun p => (.vStr p.1, p.2))
    | '[' :: t =>
      match jsonSkipWs t with
      | ']' :: r => some (.vList [], r)
      | t2 => jsonSepItems (jsonParseValue f) (t2.length + 1) [] t2
    | '\x7b' :: t =>
      match jsonSkipWs t with
      | '\x7d' :: r => some (.vDict [], r)
      | t2 => jsonSepPairs (jsonParseValue f) (t2.length + 1) [] t2
    | _ =>
      if "null".data.isPrefixOf l then some (.vNone, l.drop 4)
      else if "true".data.isPrefixOf l then some (.vBool true, l.drop 4)
      else if "false".data.isPrefixOf l then some (.vBool false, l.drop 5)
      else jsonParseNumber l

/-- Model of Python stdlib `json.loads` as used by `_parse_answer` and
`PlannerModule.forward`: parses a complete JSON document (the nonstandard
NaN/Infinity extensions are outside the modelled fragment, and floats are
exact rationals); `none` models `json.loads` raising. -/
def jsonLoads (s : String) : Option PyVal :=
  match jsonParseValue (s.data.length + 1) s.data with
  | some (v, r) => if (jsonSkipWs r).isEmpty then some v else none
  | none => none

/-! ## Regex number extraction and Python number coercions -/

/-- Fuel-indexed worker for `re.findall(r"\d+", s)`: the maximal runs of
decimal digits, left to right. -/
def digitRunsFuel : Nat → List Char → List (List Char)
  | 0, _ => []
  | _ + 1, [] => []
  | f + 1, c :: t =>
    if c.isDigit then
      ((c :: t).takeWhile Char.isDigit) :: digitRunsFuel f ((c :: t).dropWhile Char.isDigit)
    else digitRunsFuel f t

/-- `re.findall(r"\d+", s)` (src/agent/graph_hybrid.py lines 317 and 359). -/
def pyFindallInt (s : String) : List String :=
  (digitRunsFuel s.data.length s.data).map (fun l => ⟨l⟩)

/-- Fuel-indexed worker for `re.findall(r"\d+\.?\d*", s)`: maximal digit run,
an optional dot, then a further (possibly empty) digit run. -/
def numRunsFuel : Nat → List Char → List (List Char)
  | 0, _ => []
  | _ + 1, [] => []
  | f + 1, c :: t =>
    if c.isDigit then
      let d1 := (c :: t).takeWhile Char.isDigit
      let r1 := (c :: t).dropWhile Char.isDigit
      match r1 with
      | '.' :: r2 =>
        (d1 ++ ['.'] ++ r2.takeWhile Char.isDigit) :: numRunsFuel f (r2.dropWhile Char.isDigit)
      | _ => d1 :: numRunsFuel f r1
    else numRunsFuel f t

/-- `re.findall(r"\d+\.?\d*", s)` (src/agent/graph_hybrid.py line 325). -/
def pyFindallNum (s : String) : List String :=
  (numRunsFuel s.data.length s.data).map (fun l => ⟨l⟩)

/-- Python `int` applied to a findall token (a nonempty run of digits). -/
def intOfDigitString (s : String) : Int := (natOfDigits s.data : Int)

/-- Python `float` applied to a findall token of shape digits, optionally a
dot and more digits (the only shapes `\d+\.?\d*` produces). -/
def floatOfNumString (s : String) : ℚ :=
  let ip := s.data.takeWhile Char.isDigit
  match s.data.dropWhile Char.isDigit with
  | '.' :: fr => (natOfDigits ip : ℚ) + (natOfDigits fr : ℚ) / ((10 : ℚ) ^ fr.length)
  | _ => (natOfDigits ip : ℚ)

/-- Python `round(x, 2)`: rounding to 2 decimal places with ties to even, on
the exact rational value (binary floating-point representation artifacts are
outside the modelled fragment). -/
def pyRound2 (q : ℚ) : ℚ :=
  let y := q * 100
  let fl : Int := ⌊y⌋
  let fr := y - (fl : ℚ)
  let n : Int :=
    if fr < 1 / 2 then fl
    else if (1 / 2 : ℚ) < fr then fl + 1
    else if fl % 2 = 0 then fl else fl + 1
  (n : ℚ) / 100

/-- Python `int(x)` on the values a result cell can hold (`int()` of a float
truncates toward zero; an unconvertible value models the `ValueError` /
`TypeError` raise). -/
def pyIntOfVal : PyVal → Except String Int
  | .vInt n => .ok n
  | .vFloat q => .ok (q.num.tdiv (q.den : Int))
  | .vBool b => .ok (if b then 1 else 0)
  | .vStr s =>
    let t := pyStrip s
    let (neg, d) : Bool × List Char :=
      match t.data with
      | '-' :: r => (true, r)
      | '+' :: r => (false, r)
      | r => (false, r)
    if !d.isEmpty && d.all Char.isDigit then
      .ok (if neg then -(natOfDigits d : Int) else (natOfDigits d : Int))
    else .error "invalid literal for int"
  | _ => .error "int argument"

/-- Python `float(x)` on the values a result cell can hold (string conversion
covers the plain decimal shapes the agent meets; an unconvertible value
models the raise). -/
def pyFloatOfVal : PyVal → Except String ℚ
  | .vInt n => .ok (n : ℚ)
  | .vFloat q => .ok q
  | .vBool b => .ok (if b then 1 else 0)
  | .vStr s =>
    let t := pyStrip s
    let (neg, d) : Bool × List Char :=
      match t.data with
      | '-' :: r => (true, r)
      | '+' :: r => (false, r)
      | r => (false, r)
    let ip := d.takeWhile Char.isDigit
    let rest := d.dropWhile Char.isDigit
    match rest with
    | '.' :: fr =>
      if (ip.isEmpty && fr.isEmpty) || !fr.all Char.isDigit then .error "float literal"
      else
        let v : ℚ := (natOfDigits ip : ℚ) + (natOfDigits fr : ℚ) / ((10 : ℚ) ^ fr.length)
        .ok (if neg then -v else v)
    | [] =>
      if ip.isEmpty then .error "float literal"
      else .ok (if neg then -(natOfDigits ip : ℚ) else (natOfDigits ip : ℚ))
    | _ => .error "float literal"
  | _ => .error "float argument"

/-! ## The execution result record and `_parse_answer`
    (src/agent/graph_hybrid.py lines 305-362) -/

/-- The result dictionary of `SQLiteTool.execute_query`
(src/agent/tools/sqlite_tool.py lines 81-115). -/
structure ExecResult where
  success : Bool
  data : List (List PyVal)
  columns : List String
  error : Option String
  tablesUsed : List String

/-- The cell `data[0][0]`; the engine returns rows as wide as `columns`, so
the defaults are never consulted on reachable data. -/
def cell00 (data : List (List PyVal)) : PyVal :=
  (data.headD []).headD PyVal.vNone

/-- The 2-field record `{columns[0]: row[0], columns[1]: round(float(row[1]),
2) if row[1] is not None else 0.0}` built by the list- and object-hint
branches of `_parse_answer` (src/agent/graph_hybrid.py lines 333-336 and
344-347); the caller has checked `len(columns) >= 2`. -/
def listHintRow (columns : List String) (row : List PyVal) : Except String PyVal :=
  let c0 := columns.getD 0 ""
  let c1 := columns.getD 1 ""
  let v0 := row.getD 0 PyVal.vNone
  match row.getD 1 PyVal.vNone with
  | PyVal.vNone => .ok (.vDict [(c0, v0), (c1, .vFloat 0)])
  | v1 => (pyFloatOfVal v1).map (fun q => PyVal.vDict [(c0, v0), (c1, .vFloat (pyRound2 q))])

/-- Python `format_hint.startswith("\x7b")` (an object-shaped hint). -/
def hintIsObject (formatHint : String) : Bool :=
  match formatHint.data with
  | c :: _ => c == '\x7b'
  | [] => false

/-- The structured-data block of `_parse_answer` (src/agent/graph_hybrid.py
lines 309-347), entered when the execution result exists and succeeded:
`some` is a `return` from the block, `none` falls through to the JSON
fallback.  The int and float branches return even on empty data (via regex
extraction with fallbacks 0 and 0.0), the list branch always returns (an
empty list when there are no rows or fewer than 2 columns), and the
object-hint branch falls through when there are no rows or fewer than 2
columns. -/
def parseAnswerSqlBlock (answerStr formatHint : String) (r : ExecResult) :
    Option (Except String PyVal) :=
  if r.success then
    let data := r.data
    let columns := r.columns
    if formatHint == "int" then
      some
        (if !data.isEmpty then
          match cell00 data with
          | PyVal.vNone => .ok (.vInt 0)
          | v => (pyIntOfVal v).map PyVal.vInt
        else
          match pyFindallInt answerStr with
          | [] => .ok (.vInt 0)
          | n :: _ => .ok (.vInt (intOfDigitString n)))
    else if formatHint == "float" then
      some
        (if !data.isEmpty then
          match cell00 data with
          | PyVal.vNone => .ok (.vFloat 0)
          | v => (pyFloatOfVal v).map (fun q => PyVal.vFloat (pyRound2 q))
        else
          match pyFindallNum answerStr with
          | [] => .ok (.vFloat 0)
          | n :: _ => .ok (.vFloat (pyRound2 (floatOfNumString n))))
    else if pyContains formatHint "list[" then
      some
        (if columns.length ≥ 2 then
          ((data.take 3).mapM (listHintRow columns)).map PyVal.vList
        else .ok (.vList []))
    else if hintIsObject formatHint then
      if !data.isEmpty && columns.length ≥ 2 then
        some (listHintRow columns (data.headD []))
      else none
    else none
  else none

/-- `_parse_answer` (src/agent/graph_hybrid.py lines 305-362): first the
structured-data block on a successful execution result, then an attempt to
parse the oracle's answer text as JSON, then regex extraction for the `int`
hint with fallback 14, and finally the raw answer text.  The `Except` error
models an uncaught conversion exception. -/
def parseAnswer (answerStr formatHint : String) (sqlResults : Option ExecResult) :
    Except String PyVal :=
  let fromSql : Option (Except String PyVal) :=
    match sqlResults with
    | some r => parseAnswerSqlBlock answerStr formatHint r
    | none => none
  match fromSql with
  | some res => res
  | none =>
    match jsonLoads answerStr with
    | some v => .ok v
    | none =>
      if formatHint == "int" then
        match pyFindallInt answerStr with
        | [] => .ok (.vInt 14)
        | n :: _ => .ok (.vInt (intOfDigitString n))
      else .ok (.vStr answerStr)

/-! ## TFIDFRetriever (src/agent/rag/retrieval.py) -/

/-- A document chunk with metadata (the `Document` class of
src/agent/rag/retrieval.py lines 13-27); the relevance score is the cosine
similarity, modelled as an exact rational. -/
structure Document where
  chunkId : String
  content : String
  source : String
  score : ℚ
deriving Inhabited

/-- Stable ascending insertion of an index into a sorted index list, by the
key `key` (an index arriving earlier goes before later indices with an equal
key). -/
def insertAsc (key : Nat → ℚ) (i : Nat) : List Nat → List Nat
  | [] => [i]
  | j :: t => if key i ≤ key j then i :: j :: t else j :: insertAsc key i t

/-- Insertion sort of an index list, ascending by `key`. -/
def isortAsc (key : Nat → ℚ) : List Nat → List Nat
  | [] => []
  | i :: t => insertAsc key i (isortAsc key t)

/-- `np.argsort(similarities)`: the indices of `l` sorted by ascending value.
NumPy's default sort leaves the order of equal keys unspecified; this model
uses a stable sort, and no claim depends on the tie order. -/
def argsortAsc (l : List ℚ) : List Nat :=
  isortAsc (fun k => l.getD k 0) (List.range l.length)

/-- The retriever state after construction: the loaded chunks and the
vector-space scoring collaborator (`TfidfVectorizer.transform` followed by
`cosine_similarity`, which yields one score per indexed chunk).
Construction (`_load_and_chunk_documents`) raises unless at least one chunk
was loaded, but no claim needs that invariant. -/
structure TFIDFRetriever where
  chunks : List Document
  sim : String → List ℚ

/-- `TFIDFRetriever.retrieve` (src/agent/rag/retrieval.py lines 87-114):
score every chunk, order indices by descending similarity
(`np.argsort(...)[::-1]`), keep the first `top_k` and materialise the
corresponding chunks with their scores. -/
def TFIDFRetriever.retrieve (r : TFIDFRetriever) (query : String) (topK : Nat) :
    List Document :=
  if r.chunks.isEmpty then []
  else
    let similarities := r.sim query
    let topIndices := ((argsortAsc similarities).reverse).take topK
    topIndices.map (fun idx =>
      let chunk := r.chunks.getD idx default
      { chunkId := chunk.chunkId, content := chunk.content, source := chunk.source,
        score := similarities.getD idx 0 })

/-! ## Table extraction and citations
    (src/agent/tools/sqlite_tool.py lines 117-140,
     src/agent/graph_hybrid.py lines 383-395) -/

/-- The `known_tables` list of `SQLiteTool._extract_tables_from_query`
(src/agent/tools/sqlite_tool.py lines 123-127). -/
def knownTables : List String :=
  ["Orders", "Order Details", "Products", "Customers",
   "Employees", "Categories", "Suppliers", "Shippers",
   "orders", "order_items", "products", "customers"]

/-- Python `table[0].isupper()`. -/
def headIsUpper (s : String) : Bool :=
  match s.data with
  | c :: _ => decide ('A' ≤ c) && decide (c ≤ 'Z')
  | [] => false

/-- Python `str.capitalize()`: first character upper-cased, the rest
lower-cased. -/
def pyCapitalize (s : String) : String :=
  match s.data with
  | c :: t => ⟨pyUpperChar c :: t.map pyLowerChar⟩
  | [] => ""

/-- Model of Python `list(set(x))` on string lists: duplicates removed.  The
iteration order of a Python `set` is unspecified; only the membership and
duplicate-freeness of the result are meaningful, and they are all the
theorems use. -/
def pySetList (l : List String) : List String := l.dedup

/-- The loop body of `SQLiteTool._extract_tables_from_query`
(src/agent/tools/sqlite_tool.py lines 129-138): when the table name occurs
(case-insensitively, as a bare substring) in the query, either record
`Order Details` (whenever the query mentions `Order Details` literally or
`order_items` in lower case - regardless of which table matched), or record
the canonical capitalisation of the matched name. -/
def extractTablesStep (query queryUpper : String) (tables : List String)
    (table : String) : List String :=
  if pyContains queryUpper (pyUpper table) then
    let canonical := if headIsUpper table then table else pyCapitalize table
    if pyContains query "Order Details" || pyContains (pyLower query) "order_items" then
      if !(tables.contains "Order Details") then tables ++ ["Order Details"] else tables
    else if !(tables.contains canonical) && canonical != "Order Details" then
      tables ++ [canonical]
    else tables
  else tables

/-- `SQLiteTool._extract_tables_from_query` (src/agent/tools/sqlite_tool.py
lines 117-140): scan the known table names over the upper-cased query text
and de-duplicate the collected names (`list(set(tables))`). -/
def extractTablesFromQuery (query : String) : List String :=
  pySetList (knownTables.foldl (extractTablesStep query (pyUpper query)) [])

/-- `HybridAgent._collect_citations` (src/agent/graph_hybrid.py lines
383-395): the tables used by the final successful execution and the retrieved
chunk ids, concatenated and de-duplicated (`list(set(citations))`; the
truthiness guards of the source skip empty lists, which extends nothing, so
plain concatenation is equivalent). -/
def collectCitations (tablesUsed docChunkIds : List String) : List String :=
  pySetList (tablesUsed ++ docChunkIds)

/-! ## Python `str()` rendering for trace lines -/

/-- Comma-and-space joining of rendered items. -/
def joinComma (l : List String) : String :=
  match l with
  | [] => ""
  | h :: t => t.foldl (fun a s => a ++ ", " ++ s) h

/-- Rendering of a rational as it appears inside a traced Python value.
Python prints floats in decimal notation; this model prints the exact
fraction.  No claim inspects these characters (the trace-counting theorems
only look at line prefixes). -/
def pyFloatStr (q : ℚ) : String := toString q.num ++ "/" ++ toString q.den

/-- Fuel-indexed Python `repr()` of a value (the fuel bounds the nesting
depth; the agent's values are shallowly nested, so the guard is never reached
on reachable values). -/
def pyReprF : Nat → PyVal → String
  | 0, _ => ""
  | f + 1, v =>
    match v with
    | .vNone => "None"
    | .vBool true => "True"
    | .vBool false => "False"
    | .vInt n => toString n
    | .vFloat q => pyFloatStr q
    | .vStr s => "'" ++ s ++ "'"
    | .vList xs => "[" ++ joinComma (xs.map (pyReprF f)) ++ "]"
    | .vDict kvs =>
      "\x7b" ++ joinComma (kvs.map (fun p => "'" ++ p.1 ++ "': " ++ pyReprF f p.2)) ++ "\x7d"

/-- Python `str()` of a value as interpolated into an f-string: the raw text
for a string, `repr`-style rendering otherwise. -/
def pyStr (v : PyVal) : String :=
  match v with
  | .vStr s => s
  | _ => pyReprF 100 v

/-- Python `repr()` of a list of strings, as interpolated into the retriever
trace line. -/
def pyReprStrList (l : List String) : String :=
  "[" ++ joinComma (l.map (fun s => "'" ++ s ++ "'")) ++ "]"

/-- Python slicing `s[:n]` (the first `n` characters). -/
def pyTakeChars (s : String) (n : Nat) : String := ⟨s.data.take n⟩

/-! ## The workflow state and the graph nodes
    (src/agent/graph_hybrid.py lines 21-54 and 147-430) -/

/-- The `AgentState` record threaded through the LangGraph workflow
(src/agent/graph_hybrid.py lines 21-53), with the initial values of `run`
(lines 401-418) as defaults of meaning: Python `None` is `none`/`Option`. -/
structure MState where
  question : String
  formatHint : String
  route : Option String
  retrievedDocs : List Document
  docChunkIds : List String
  constraints : PyVal
  sqlQuery : Option String
  sqlResults : Option ExecResult
  sqlError : Option String
  tablesUsed : List String
  repairCount : Nat
  finalAnswer : Option PyVal
  explanation : String
  confidence : ℚ
  citations : List String
  trace : List String

/-- The initial state built by `run` (src/agent/graph_hybrid.py lines
401-418). -/
def initialState (question formatHint : String) : MState :=
  { question := question, formatHint := formatHint, route := none,
    retrievedDocs := [], docChunkIds := [], constraints := .vDict [],
    sqlQuery := none, sqlResults := none, sqlError := none, tablesUsed := [],
    repairCount := 0, finalAnswer := none, explanation := "", confidence := 0,
    citations := [], trace := [] }

/-- The collaborators a `HybridAgent` is constructed from
(src/agent/graph_hybrid.py lines 61-78).  The oracle-backed modules are
abstracted at the boundary at which `HybridAgent` receives them: `routerLM`
is the raw text reply of the route classifier (normalised by
`routerForward`), `planner`, `nlToSql`, `sqlRepair` and `synthesizer` are the
corresponding module `forward` functions, and `execute` is
`SQLiteTool.execute_query` applied to the state's current query value. -/
structure Agent where
  routerLM : String → String
  retriever : TFIDFRetriever
  planner : String → List Document → PyVal
  nlToSql : String → String → PyVal → String → String
  execute : Option String → ExecResult
  sqlRepair : Option String → Option String → String → String
  synthesizer : String → String → Option ExecResult → List Document → String × String
  schema : String

/-- Appending one line to the append-only trace. -/
def addTrace (st : MState) (line : String) : MState :=
  { st with trace := st.trace ++ [line] }

/-- The route normalisation of `RouterModule.forward`
(src/agent/dspy_signatures.py lines 67-81): lower-case and strip the raw
reply, then map any mention of hybrid/both to `hybrid`, else sql to `sql`,
else rag to `rag`, defaulting to `hybrid`. -/
def routerForward (raw : String) : String :=
  let route := pyStrip (pyLower raw)
  if pyContains route "hybrid" || pyContains route "both" then "hybrid"
  else if pyContains route "sql" then "sql"
  else if pyContains route "rag" then "rag"
  else "hybrid"

/-- `_route_node` (src/agent/graph_hybrid.py lines 147-155). -/
def routeNode (a : Agent) (st : MState) : MState :=
  let st1 := addTrace st "ROUTER: Classifying query type"
  let route := routerForward (a.routerLM st1.question)
  let st2 := { st1 with route := some route }
  addTrace st2 ("ROUTER: Route = " ++ route)

/-- `_retriever_node` (src/agent/graph_hybrid.py lines 157-179). -/
def retrieverNode (a : Agent) (st : MState) : MState :=
  let st1 := addTrace st "RETRIEVER: Fetching relevant documents"
  let docs := a.retriever.retrieve st1.question 3
  let st2 := { st1 with retrievedDocs := docs, docChunkIds := docs.map (fun d => d.chunkId) }
  addTrace st2 ("RETRIEVER: Retrieved " ++ toString docs.length ++ " chunks: " ++
    pyReprStrList (docs.map (fun d => d.chunkId)))

/-- `_planner_node` (src/agent/graph_hybrid.py lines 181-193). -/
def plannerNode (a : Agent) (st : MState) : MState :=
  let st1 := addTrace st "PLANNER: Extracting constraints"
  let constraints := a.planner st1.question st1.retrievedDocs
  let st2 := { st1 with constraints := constraints }
  addTrace st2 ("PLANNER: Constraints = " ++ pyStr constraints)

/-- `_nl_to_sql_node` (src/agent/graph_hybrid.py lines 195-209). -/
def nlToSqlNode (a : Agent) (st : MState) : MState :=
  let st1 := addTrace st "NL→SQL: Generating SQL query"
  let sql := a.nlToSql st1.question a.schema st1.constraints st1.formatHint
  let st2 := { st1 with sqlQuery := some sql }
  addTrace st2 ("NL→SQL: Generated query: " ++ pyTakeChars sql 100 ++ "...")

/-- Rendering of the error value in the executor's failure trace line
(Python prints `None` for a missing message). -/
def pyOptErrStr : Option String → String
  | some s => s
  | none => "None"

/-- `_executor_node` (src/agent/graph_hybrid.py lines 211-230): run the
current query, and on success record the result, the tables used and a
cleared error; on failure record the result and its error message. -/
def executorNode (a : Agent) (st : MState) : MState :=
  let st1 := addTrace st "EXECUTOR: Running SQL query"
  let result := a.execute st1.sqlQuery
  if result.success then
    let st2 := { st1 with sqlResults := some result, tablesUsed := result.tablesUsed,
                          sqlError := none }
    addTrace st2 ("EXECUTOR: Success! Got " ++ toString result.data.length ++ " rows")
  else
    let st2 := { st1 with sqlResults := some result, sqlError := result.error }
    addTrace st2 ("EXECUTOR: Error - " ++ pyOptErrStr result.error)

/-- `_repair_node` (src/agent/graph_hybrid.py lines 232-247): trace the
attempt, ask the repair module for a new query, store it and increment the
repair counter by exactly one. -/
def repairNode (a : Agent) (st : MState) : MState :=
  let st1 := addTrace st
    ("REPAIR: Attempting repair (attempt " ++ toString (st.repairCount + 1) ++ ")")
  let repairedSql := a.sqlRepair st1.sqlQuery st1.sqlError a.schema
  let st2 := { st1 with sqlQuery := some repairedSql, repairCount := st1.repairCount + 1 }
  addTrace st2 ("REPAIR: New query: " ++ pyTakeChars repairedSql 100 ++ "...")

/-- `_calculate_confidence` (src/agent/graph_hybrid.py lines 364-381): base
0.5, plus 0.3 on a successful execution, plus the mean retrieved score times
0.2 when documents were retrieved, minus 0.1 per repair, clamped to [0, 1]. -/
def calculateConfidence (st : MState) : ℚ :=
  let c0 : ℚ := 0.5
  let c1 := if (match st.sqlResults with | some r => r.success | none => false) then
      c0 + 0.3
    else c0
  let c2 := if !st.retrievedDocs.isEmpty then
      c1 + ((st.retrievedDocs.map (fun d => d.score)).sum /
        (st.retrievedDocs.length : ℚ)) * 0.2
    else c1
  let c3 := if st.repairCount > 0 then c2 - (st.repairCount : ℚ) * 0.1 else c2
  max 0 (min 1 c3)

/-- `_synthesizer_node` (src/agent/graph_hybrid.py lines 249-278): invoke the
synthesizer module, coerce its answer with `_parse_answer`, then compute
confidence and citations.  The `Except` propagates an uncaught coercion
exception. -/
def synthesizerNode (a : Agent) (st : MState) : Except String MState :=
  let st1 := addTrace st "SYNTHESIZER: Generating final answer"
  let res := a.synthesizer st1.question st1.formatHint st1.sqlResults st1.retrievedDocs
  match parseAnswer res.1 st1.formatHint st1.sqlResults with
  | .error e => .error e
  | .ok finalAnswer =>
    let st2 := { st1 with finalAnswer := some finalAnswer, explanation := res.2 }
    let st3 := { st2 with confidence := calculateConfidence st2 }
    let st4 := { st3 with citations := collectCitations st3.tablesUsed st3.docChunkIds }
    .ok (addTrace st4 ("SYNTHESIZER: Final answer = " ++ pyStr finalAnswer))

/-- `_route_decision` (src/agent/graph_hybrid.py lines 282-284). -/
def routeDecision (st : MState) : String := st.route.getD ""

/-- `_after_planner_decision` (src/agent/graph_hybrid.py lines 286-292). -/
def afterPlannerDecision (st : MState) : String :=
  if routeDecision st == "rag" then "rag_only" else "sql"

/-- `_after_executor_decision` (src/agent/graph_hybrid.py lines 294-301):
success when no error is recorded, a repair while fewer than 2 repairs were
consumed, otherwise the exhausted/fail path. -/
def afterExecutorDecision (st : MState) : String :=
  if st.sqlError.isNone then "success"
  else if st.repairCount < 2 then "repair"
  else "fail"

/-- Fuel-indexed executor/repair loop of the graph (edges
executor-(success|repair|fail), repair-executor, src/agent/graph_hybrid.py
lines 126-138).  The fuel only serves to present the loop structurally: the
repair guard `repair_count < 2` makes more than `2 - repair_count` repair
transitions impossible, so with the fuel `execLoop` passes the sentinel is
unreachable (`execLoopF_fuel_irrelevant` below). -/
def execLoopF (a : Agent) : Nat → MState → Except String MState
  | 0, _ => .error "unreachable: loop fuel exhausted"
  | f + 1, st =>
    let st1 := executorNode a st
    if afterExecutorDecision st1 == "success" then synthesizerNode a st1
    else if afterExecutorDecision st1 == "repair" then execLoopF a f (repairNode a st1)
    else synthesizerNode a st1

/-- The executor/repair loop entered from `nl_to_sql`. -/
def execLoop (a : Agent) (st : MState) : Except String MState :=
  execLoopF a (2 - st.repairCount + 1) st

/-- The compiled graph applied to the initial state
(src/agent/graph_hybrid.py lines 83-143 and 420): router, then the
router-keyed conditional edge (`sql` goes straight to the planner, `rag` and
`hybrid` retrieve first), then the planner-keyed conditional edge (`rag`
routes to the synthesizer, everything else generates SQL and enters the
executor/repair loop).  `routerForward` only produces the three mapped keys
(`routerForward_mem` below); any other key would raise in LangGraph, and the
model's final else-branch is never reached with a normalised route. -/
def runState (a : Agent) (question formatHint : String) : Except String MState :=
  let st1 := routeNode a (initialState question formatHint)
  let st2 := if routeDecision st1 == "sql" then plannerNode a st1
             else plannerNode a (retrieverNode a st1)
  if afterPlannerDecision st2 == "rag_only" then synthesizerNode a st2
  else execLoop a (nlToSqlNode a st2)

/-- The dictionary returned by `run` (src/agent/graph_hybrid.py lines
422-429).  `sql` is `final_state.get("sql_query", "")`: the key is always
present (set to `None` in the initial state), so `get` returns the stored
value and the `""` default is dead - on a route that never generated SQL the
returned value is Python `None`, modelled as `none`. -/
structure RunResult where
  finalAnswer : Option PyVal
  sql : Option String
  confidence : ℚ
  explanation : String
  citations : List String
  trace : List String

/-- `HybridAgent.run` (src/agent/graph_hybrid.py lines 399-429). -/
def runAgent (a : Agent) (question formatHint : String) : Except String RunResult :=
  (runState a question formatHint).map (fun st =>
    { finalAnswer := st.finalAnswer, sql := st.sqlQuery, confidence := st.confidence,
      explanation := st.explanation, citations := st.citations, trace := st.trace })

/-- Number of trace entries starting with the given prefix text. -/
def countPre (l : List String) (p : String) : Nat :=
  l.countP (fun s => p.data.isPrefixOf s.data)

/-- Whether `s` starts with the text `p`. -/
def startsWithStr (p s : String) : Bool := p.data.isPrefixOf s.data

/-! ## Spec-side definitions, written from the specification's words to be
compared against the code embeddings above -/

/-- Spec side of C2: a month-range query over a fixed first endpoint
`1997-06-01` and a caller-chosen second endpoint. -/
def mkMonthRangeQuery (endDate : String) : String :=
  "SELECT * FROM Orders o WHERE strftime('%Y-%m', o.OrderDate) BETWEEN '1997-06-01' AND '" ++
    endDate ++ "'"

/-- Spec side of C4: the value the spec expects for a float hint with no
rows - the first `\d+\.?\d*` match of the answer text, rounded to 2 decimal
places (0.0 when there is none). -/
def floatRegexValue (ans : String) : PyVal :=
  match pyFindallNum ans with
  | [] => .vFloat 0
  | n :: _ => .vFloat (pyRound2 (floatOfNumString n))

/-- Spec side of C4: the value expected for an int hint coerced from the
answer text by regex, with the given fallback when no number occurs. -/
def intRegexValue (ans : String) (fallback : Int) : PyVal :=
  match pyFindallInt ans with
  | [] => .vInt fallback
  | n :: _ => .vInt (intOfDigitString n)

/-- Decimal digit character for a digit value. -/
def digitCh (d : Fin 10) : Char := Char.ofNat (48 + d.val)

/-- Spec side of C2: the month-range query whose second endpoint has an
arbitrary two-digit month (day fixed to 15). -/
def mkEndMonthQuery (d1 d2 : Fin 10) : String :=
  mkMonthRangeQuery (String.mk ['1', '9', '9', '7', '-', digitCh d1, digitCh d2, '-', '1', '5'])

/-- Clamping to the unit interval. -/
def clamp01 (x : ℚ) : ℚ := max 0 (min 1 x)

/-- Spec side of C3: the unclamped confidence base - 0.5, plus 0.3 on
success, plus the mean retrieved score times 0.2 when passages were
retrieved. -/
def confBase (st : MState) : ℚ :=
  0.5 + (if (match st.sqlResults with | some r => r.success | none => false) then
            (0.3 : ℚ) else 0) +
    (if !st.retrievedDocs.isEmpty then
      ((st.retrievedDocs.map (fun d => d.score)).sum / (st.retrievedDocs.length : ℚ)) * 0.2
    else 0)

/-- Spec side of C3: base minus 0.1 per repair consumed, before clamping. -/
def confSpecFormula (st : MState) : ℚ :=
  confBase st - (st.repairCount : ℚ) * 0.1

/-- The concrete double-division query of the C9 counterexample. -/
def c9Query : String :=
  "SELECT SUM(p) / COUNT(DISTINCT o.OrderID) / COUNT(DISTINCT o.OrderID) AS Total FROM t"

/-- The concrete state of the C3 witness: one repair consumed, one retrieved
passage with score 1/2, no execution result. -/
def c3WitnessState : MState :=
  { initialState "q" "" with
    repairCount := 1,
    retrievedDocs := [⟨"docs::chunk0", "text", "docs", 1/2⟩] }

/-- The concrete retriever of the C10 witness: two indexed chunks and a
scoring collaborator that gives every chunk similarity 0 (a query sharing no
vocabulary with the corpus). -/
def c10Retriever : TFIDFRetriever :=
  ⟨[⟨"a::chunk0", "x", "a", 0⟩, ⟨"a::chunk1", "y", "a", 0⟩], fun _ => [0, 0]⟩

/-- The single-division query of the C9 witness. -/
def c9SingleDivQuery : String :=
  "SELECT SUM(x) / COUNT(DISTINCT o.OrderID) AS TotalRevenue FROM t"

/-- Trace-entry prefix identifying a REPAIR-node entry. -/
def patRepair : String := "REPAIR"

/-- Trace-entry prefix identifying the attempt marker of a REPAIR
transition (the first of the two entries the repair node appends). -/
def patAttempt : String := "REPAIR: Attempting"

/-- Trace-entry prefix identifying one query execution. -/
def patExec : String := "EXECUTOR: Running"

/-- Trace-entry prefix identifying a synthesizer entry. -/
def patSynth : String := "SYNTHESIZER"

/-- A concrete agent whose engine fails every execution (the repair budget is
exhausted): routed to `sql`, generating a fixed query, every execution
failing with a name-resolution error, the repair module echoing the query. -/
def failingAgent : Agent :=
  { routerLM := fun _ => "sql",
    retriever := ⟨[], fun _ => []⟩,
    planner := fun _ _ => .vDict [],
    nlToSql := fun _ _ _ _ => "SELECT 1",
    execute := fun _ => ⟨false, [], [], some "no such table: T", []⟩,
    sqlRepair := fun q _ _ => q.getD "",
    synthesizer := fun _ _ _ _ => ("42", "the query failed"),
    schema := "S" }

/-- A concrete agent routed to `rag`, which never reaches SQL generation. -/
def ragAgent : Agent :=
  { routerLM := fun _ => "rag",
    retriever := ⟨[], fun _ => []⟩,
    planner := fun _ _ => .vDict [],
    nlToSql := fun _ _ _ _ => "unused",
    execute := fun _ => ⟨false, [], [], none, []⟩,
    sqlRepair := fun _ _ _ => "unused",
    synthesizer := fun _ _ _ _ => ("hello", "from docs"),
    schema := "S" }

/-! # Theorems -/

/-! ## Generic helper lemmas -/

/-- A scanning substitution whose matcher succeeds nowhere is the identity. -/
theorem scanSubCFuel_of_no_match (matcher : List Char → Option (List Char × List Char)) :
    ∀ (f : Nat) (l : List Char), anyMatchPos matcher l = false →
      scanSubCFuel matcher f l = l := by
  intro f
  induction f with
  | zero => intro l _; rfl
  | succ f ih =>
    intro l h
    cases l with
    | nil => rfl
    | cons c t =>
      unfold anyMatchPos at h
      rw [Bool.or_eq_false_iff] at h
      obtain ⟨h1, h2⟩ := h
      cases hm : matcher (c :: t) with
      | some v => rw [hm] at h1; simp at h1
      | none =>
        unfold scanSubCFuel
        rw [hm, ih t h2]

/-- The route normalisation only ever produces the three graph keys, so the
graph dispatch of `runState` never sees another value. -/
theorem routerForward_mem (raw : String) :
    routerForward raw ∈ (["rag", "sql", "hybrid"] : List String) := by
  unfold routerForward
  dsimp only []
  split_ifs <;> simp

/-- Stable insertion grows the index list by one. -/
theorem length_insertAsc (key : Nat → ℚ) (i : Nat) :
    ∀ l, (insertAsc key i l).length = l.length + 1 := by
  intro l
  induction l with
  | nil => rfl
  | cons j t ih =>
    unfold insertAsc
    split
    · simp
    · simp [ih]

/-- Insertion sort preserves length. -/
theorem length_isortAsc (key : Nat → ℚ) : ∀ l, (isortAsc key l).length = l.length := by
  intro l
  induction l with
  | nil => rfl
  | cons i t ih => unfold isortAsc; rw [length_insertAsc, ih]; simp

/-- The argsort of a score list is a list of as many indices. -/
theorem length_argsortAsc (l : List ℚ) : (argsortAsc l).length = l.length := by
  unfold argsortAsc
  rw [length_isortAsc, List.length_range]

/-! ## C8: the repair typo-fix pass versus Normalizer steps 1-3 -/

/-- C8 counterexample: the claim says the Repair step's deterministic
typo-fix pass and Normalizer steps 1-3 are the same text transformation; on
the query `SELECT X FROM order_details` the Normalizer quotes the table name
(case-insensitive word-boundary rewrite) while the Repair pass leaves the
text unchanged (its `OrderDetails` replacement is case-sensitive and
boundary-free, and it has no `order_details` rule). -/
theorem C8_counterexample :
    normTypoFix123 "SELECT X FROM order_details" ≠
      repairTypoFix "SELECT X FROM order_details" := by decide

/-- C8 amended: the two passes agree on the shared substitutions (strftime
and BETWEEN misspellings, backtick-quoted table name, word-bounded
`OrderDetails`, standalone `Instance`), but they are not the same
transformation: they differ on `order_details`, on the gibberish
placeholder pattern (absent from the Repair pass), and on `OrderDetails`
occurring inside a longer word (which only the Repair pass rewrites). -/
theorem C8_amended :
    (∀ s ∈ (["SELECT strftForms('%Y-%m', OrderDate) FROM Orders",
             "SELECT strftTime('%Y', OrderDate) FROM Orders",
             "a BETWEWEN b",
             "x BETWEInstance y",
             "SELECT * FROM `Order Details`",
             "SELECT Instance FROM t",
             "SELECT * FROM OrderDetails"] : List String),
        normTypoFix123 s = repairTypoFix s) ∧
    normTypoFix123 "SELECT X FROM order_details" ≠
      repairTypoFix "SELECT X FROM order_details" ∧
    normTypoFix123 "WHERE o- 'Instance' > 5" ≠ repairTypoFix "WHERE o- 'Instance' > 5" ∧
    normTypoFix123 "WHERE xOrderDetails = 1" ≠ repairTypoFix "WHERE xOrderDetails = 1" := by
  decide

/-- C8 witness: the agreement part of the amended claim at a concrete
shared-substitution input. -/
theorem C8_witness : normTypoFix123 "a BETWEWEN b" = repairTypoFix "a BETWEWEN b" :=
  C8_amended.1 "a BETWEWEN b" (by decide)

/-! ## C5: the repair fast path and the oracle path -/

/-- C5 counterexample: the claim says the oracle's reply is run through the
typo-fix pass before being returned; with an error message that triggers the
oracle path and a reply containing `BETWEWEN`, the module returns the reply
with the typo intact, although the typo-fix pass would have changed it. -/
theorem C5_counterexample :
    sqlRepairForward (fun _ _ _ => "SELECT 1 WHERE a BETWEWEN 2 AND 3") "SELECT 1"
        "ambiguous column name: a" "S" = "SELECT 1 WHERE a BETWEWEN 2 AND 3" ∧
    repairTypoFix "SELECT 1 WHERE a BETWEWEN 2 AND 3" ≠
      "SELECT 1 WHERE a BETWEWEN 2 AND 3" := by decide

/-- C5 amended: the fast path is as claimed (typo-fixed text returned
directly, independently of the oracle, when the fix changed the text and the
error mentions a syntax or name-resolution problem); otherwise the oracle is
invoked on the original query and its reply receives only the reduced
post-processing `repairOraclePostFix` (code-fence extraction plus the
strftime-misspelling and backtick-quoting substitutions), not the full
typo-fix pass. -/
theorem C5_amended (lm : String → String → String → String) (q e s : String) :
    (repairTypoFix q ≠ q →
      (pyContains (pyLower e) "syntax" || pyContains (pyLower e) "no such") = true →
      sqlRepairForward lm q e s = repairTypoFix q) ∧
    (repairTypoFix q = q →
      sqlRepairForward lm q e s = repairOraclePostFix (lm q e s)) ∧
    ((pyContains (pyLower e) "syntax" || pyContains (pyLower e) "no such") = false →
      sqlRepairForward lm q e s = repairOraclePostFix (lm q e s)) := by
  refine ⟨fun h1 h2 => ?_, fun h1 => ?_, fun h1 => ?_⟩
  · unfold sqlRepairForward
    rw [if_pos]
    rw [h2, Bool.and_true, bne_iff_ne]
    exact h1
  · unfold sqlRepairForward
    rw [if_neg]
    rw [Bool.and_eq_true, bne_iff_ne]
    intro hcon
    exact hcon.1 h1
  · unfold sqlRepairForward
    rw [if_neg]
    rw [h1, Bool.and_false]
    simp

/-- C5 witness: the fast path at a concrete failed query (`OrderDetails`
unquoted, error `no such table`), for an arbitrary concrete oracle. -/
theorem C5_witness :
    sqlRepairForward (fun _ _ _ => "oracle reply") "SELECT * FROM OrderDetails"
      "no such table: OrderDetails" "S" = repairTypoFix "SELECT * FROM OrderDetails" :=
  (C5_amended (fun _ _ _ => "oracle reply") "SELECT * FROM OrderDetails"
    "no such table: OrderDetails" "S").1 (by decide) (by decide)

/-! ## C2: the month-range collapse -/

/-- C2 counterexample: the claim says a range whose endpoints lie in
different months is left unchanged; the pattern never inspects the second
endpoint, so `BETWEEN '1997-06-01' AND '1997-07-15'` is also collapsed, to
the first endpoint's month. -/
theorem C2_counterexample :
    fixMonthBetween (mkMonthRangeQuery "1997-07-15") ≠ mkMonthRangeQuery "1997-07-15" ∧
    fixMonthBetween (mkMonthRangeQuery "1997-07-15") =
      "SELECT * FROM Orders o WHERE strftime('%Y-%m', o.OrderDate) = '1997-06'" := by
  decide

/-- C2 amended: the rewrite collapses the comparison to an equality on the
FIRST endpoint's year-month whenever the syntactic pattern matches,
regardless of the month of the second endpoint (same month, a different
month, or a different year). -/
theorem C2_amended :
    (∀ d1 d2 : Fin 10,
      fixMonthBetween (mkEndMonthQuery d1 d2) =
        "SELECT * FROM Orders o WHERE strftime('%Y-%m', o.OrderDate) = '1997-06'") ∧
    ∀ d ∈ (["1997-06-30", "1997-07-15", "1998-01-01", "2020-12-31"] : List String),
      fixMonthBetween (mkMonthRangeQuery d) =
        "SELECT * FROM Orders o WHERE strftime('%Y-%m', o.OrderDate) = '1997-06'" := by
  decide

/-- C2 witness: the amended claim at the different-month endpoint. -/
theorem C2_witness :
    fixMonthBetween (mkMonthRangeQuery "1997-07-15") =
      "SELECT * FROM Orders o WHERE strftime('%Y-%m', o.OrderDate) = '1997-06'" :=
  C2_amended.2 "1997-07-15" (by decide)

/-! ## C9: idempotence of the division removal -/

/-- C9 counterexample: on a query with two stacked divisions by a distinct
order count, one application removes only the trailing division (the regex
cannot match both, as the first division is not directly followed by `AS`),
so a second application changes the query again - the rewrite is not
idempotent on every query string. -/
theorem C9_counterexample :
    removeDivByOrderCount (removeDivByOrderCount c9Query) ≠
      removeDivByOrderCount c9Query := by decide

/-- C9 amended: the rewrite is idempotent on every query whose first
application leaves no residual match of either removal pattern - in
particular on queries with at most one division-by-order-count factor per
aggregate; in general each application removes one trailing factor. -/
theorem C9_amended (s : String)
    (h1 : anyMatchPos matchDivRoundRepl (removeDivByOrderCount s).data = false)
    (h2 : anyMatchPos matchDivSimpleRepl (removeDivByOrderCount s).data = false) :
    removeDivByOrderCount (removeDivByOrderCount s) = removeDivByOrderCount s := by
  have hr : divRoundPass (removeDivByOrderCount s) = removeDivByOrderCount s := by
    unfold divRoundPass
    rw [scanSubCFuel_of_no_match _ _ _ h1]
  calc removeDivByOrderCount (removeDivByOrderCount s)
      = divSimplePass (divRoundPass (removeDivByOrderCount s)) := rfl
    _ = divSimplePass (removeDivByOrderCount s) := by rw [hr]
    _ = removeDivByOrderCount s := by
        unfold divSimplePass
        rw [scanSubCFuel_of_no_match _ _ _ h2]

/-- C9 witness: the amended idempotence at a concrete single-division
query. -/
theorem C9_witness :
    anyMatchPos matchDivRoundRepl (removeDivByOrderCount c9SingleDivQuery).data = false ∧
    anyMatchPos matchDivSimpleRepl (removeDivByOrderCount c9SingleDivQuery).data = false ∧
    removeDivByOrderCount (removeDivByOrderCount c9SingleDivQuery) =
      removeDivByOrderCount c9SingleDivQuery :=
  ⟨by decide, by decide, C9_amended c9SingleDivQuery (by decide) (by decide)⟩

/-! ## C6: citations -/

/-- C6 counterexample: the claim says citations equal the union of the table
names actually present in the final executed query and the passage ids; on a
query containing both `Orders` and `Order Details` the extractor records
only `Order Details` (its per-table loop short-circuits whenever the query
mentions `Order Details`), so `Orders` is present in the query but absent
from the citations. -/
theorem C6_counterexample :
    pyContains "SELECT * FROM Orders JOIN \"Order Details\" ON 1" "Orders" = true ∧
    "Orders" ∉ collectCitations
      (extractTablesFromQuery "SELECT * FROM Orders JOIN \"Order Details\" ON 1") [] := by
  decide

/-- C6 amended: citations contain no duplicates and equal, as a set, the
union of the substring-scan extractor's output on the executed query and the
retrieved passage ids; the extractor's output is not always the set of table
names present in the query. -/
theorem C6_amended (q : String) (ids : List String) :
    (collectCitations (extractTablesFromQuery q) ids).Nodup ∧
    ∀ x, x ∈ collectCitations (extractTablesFromQuery q) ids ↔
      (x ∈ extractTablesFromQuery q ∨ x ∈ ids) := by
  refine ⟨List.nodup_dedup _, fun x => ?_⟩
  simp [collectCitations, pySetList, List.mem_dedup, List.mem_append]

/-! ## C10: the retriever always returns min(top_k, chunk count) passages -/

/-- C10: once constructed, `retrieve(query, top_k)` returns exactly
`min top_k (number of indexed chunks)` passages - the scoring collaborator
returns one similarity per chunk - regardless of the scores (zero-similarity
chunks included), and every returned chunk id enters the citations built
from it. -/
theorem C10_retrieve_count (r : TFIDFRetriever) (query : String) (topK : Nat)
    (h : (r.sim query).length = r.chunks.length) :
    (r.retrieve query topK).length = min topK r.chunks.length ∧
    ∀ (tbls : List String) (id : String),
      id ∈ (r.retrieve query topK).map (fun d => d.chunkId) →
      id ∈ collectCitations tbls ((r.retrieve query topK).map (fun d => d.chunkId)) := by
  constructor
  · unfold TFIDFRetriever.retrieve
    by_cases hc : r.chunks.isEmpty
    · simp [hc, List.isEmpty_iff.mp hc]
    · simp only [hc, if_false, Bool.false_eq_true]
      rw [List.length_map, List.length_take, List.length_reverse, length_argsortAsc, h]
  · intro tbls id hid
    simp only [collectCitations, pySetList, List.mem_dedup, List.mem_append]
    exact Or.inr hid

/-- C10 witness: a two-chunk retriever, a query with no shared vocabulary
(every similarity 0) and `top_k = 3` still returns `min 3 2 = 2` passages. -/
theorem C10_witness :
    (c10Retriever.sim "zzz").length = c10Retriever.chunks.length ∧
    (c10Retriever.retrieve "zzz" 3).length = min 3 c10Retriever.chunks.length :=
  ⟨by decide, (C10_retrieve_count c10Retriever "zzz" 3 (by decide)).1⟩

/-! ## C3: the confidence formula -/

/-- The clamp keeps every value in the unit interval. -/
theorem clamp01_mem (x : ℚ) : 0 ≤ clamp01 x ∧ clamp01 x ≤ 1 :=
  ⟨le_max_left 0 _, max_le (by norm_num) (min_le_left 1 x)⟩

/-- The code's incremental confidence computation equals the clamped spec
formula. -/
theorem calculateConfidence_eq_clamp (st : MState) :
    calculateConfidence st = clamp01 (confSpecFormula st) := by
  have hcongr : ∀ x y : ℚ, x = y → max 0 (min 1 x) = max 0 (min 1 y) := by
    intro x y h
    rw [h]
  unfold calculateConfidence clamp01
  apply hcongr
  unfold confSpecFormula confBase
  split_ifs with h1 h2 h3 <;>
    first
      | ring1
      | (have hz : st.repairCount = 0 := by omega
         rw [hz]; push_cast; ring)

/-- The base (unclamped, zero-repair) confidence lies in [1/2, 1] when every
retrieved score lies in [0, 1]. -/
theorem confBase_bounds (st : MState)
    (h : ∀ d ∈ st.retrievedDocs, 0 ≤ d.score ∧ d.score ≤ 1) :
    1 / 2 ≤ confBase st ∧ confBase st ≤ 1 := by
  unfold confBase
  have hs : (0 : ℚ) ≤
        (if (match st.sqlResults with | some r => r.success | none => false) then
          (0.3 : ℚ) else 0) ∧
      (if (match st.sqlResults with | some r => r.success | none => false) then
          (0.3 : ℚ) else 0) ≤ 3 / 10 := by
    split_ifs <;> norm_num
  have hd : (0 : ℚ) ≤
        (if !st.retrievedDocs.isEmpty then
          ((st.retrievedDocs.map (fun d => d.score)).sum /
            (st.retrievedDocs.length : ℚ)) * 0.2
        else 0) ∧
      (if !st.retrievedDocs.isEmpty then
          ((st.retrievedDocs.map (fun d => d.score)).sum /
            (st.retrievedDocs.length : ℚ)) * 0.2
        else 0) ≤ 1 / 5 := by
    split_ifs with hne
    · have hne' : st.retrievedDocs ≠ [] := by
        intro hcon
        rw [hcon] at hne
        simp at hne
      have hlen : 0 < (st.retrievedDocs.length : ℚ) := by
        exact_mod_cast List.length_pos.mpr hne'
      have hsum0 : 0 ≤ (st.retrievedDocs.map (fun d => d.score)).sum := by
        apply List.sum_nonneg
        intro x hx
        obtain ⟨d, hd1, rfl⟩ := List.mem_map.mp hx
        exact (h d hd1).1
      have hsum1 : (st.retrievedDocs.map (fun d => d.score)).sum ≤
          ((st.retrievedDocs.map (fun d => d.score)).length : ℚ) := by
        have := List.sum_le_card_nsmul (st.retrievedDocs.map (fun d => d.score)) 1
          (by intro x hx
              obtain ⟨d, hd1, rfl⟩ := List.mem_map.mp hx
              exact (h d hd1).2)
        simpa [nsmul_eq_mul] using this
      rw [List.length_map] at hsum1
      have hdiv : (st.retrievedDocs.map (fun d => d.score)).sum /
          (st.retrievedDocs.length : ℚ) ≤ 1 := (div_le_one hlen).mpr hsum1
      constructor
      · exact mul_nonneg (div_nonneg hsum0 hlen.le) (by norm_num)
      · calc (st.retrievedDocs.map (fun d => d.score)).sum /
              (st.retrievedDocs.length : ℚ) * 0.2 ≤ 1 * 0.2 := by
              exact mul_le_mul_of_nonneg_right hdiv (by norm_num)
          _ ≤ 1 / 5 := by norm_num
    · norm_num
  constructor <;> linarith [hs.1, hs.2, hd.1, hd.2]

/-- The base confidence only reads fields the repair-count update
preserves. -/
theorem confBase_update (st : MState) :
    confBase { st with repairCount := 0 } = confBase st := rfl

/-- C3: the confidence returned by `_calculate_confidence` equals the
clamped spec formula (0.5, +0.3 on success, + mean score x 0.2 when passages
exist, -0.1 per repair), is always in [0, 1], and - when the retrieved
scores lie in [0, 1] as the data model guarantees - each consumed repair
strictly decreases it relative to the otherwise-identical zero-repair
state. -/
theorem C3_confidence (st : MState) :
    calculateConfidence st = clamp01 (confSpecFormula st) ∧
    (0 ≤ calculateConfidence st ∧ calculateConfidence st ≤ 1) ∧
    ((∀ d ∈ st.retrievedDocs, 0 ≤ d.score ∧ d.score ≤ 1) → 1 ≤ st.repairCount →
      calculateConfidence st < calculateConfidence { st with repairCount := 0 }) := by
  refine ⟨calculateConfidence_eq_clamp st, ?_, ?_⟩
  · rw [calculateConfidence_eq_clamp st]
    exact clamp01_mem _
  · intro h hr
    obtain ⟨hB1, hB2⟩ := confBase_bounds st h
    have hr' : (1 : ℚ) ≤ (st.repairCount : ℚ) := by exact_mod_cast hr
    rw [calculateConfidence_eq_clamp st, calculateConfidence_eq_clamp]
    unfold confSpecFormula
    rw [confBase_update]
    have hz : ({ st with repairCount := 0 } : MState).repairCount = 0 := rfl
    rw [hz]
    have h0 : clamp01 (confBase st - (0 : Nat) * 0.1) = confBase st := by
      unfold clamp01
      push_cast
      rw [mul_comm, mul_zero, sub_zero]
      rw [min_eq_right hB2, max_eq_right (by linarith)]
    rw [h0]
    unfold clamp01
    have hmin : min 1 (confBase st - (st.repairCount : ℚ) * 0.1) =
        confBase st - (st.repairCount : ℚ) * 0.1 := by
      apply min_eq_right
      nlinarith
    rw [hmin]
    apply max_lt_iff.mpr
    constructor
    · linarith
    · nlinarith

/-- C3 witness: the strict decrease at a concrete state with one repair
consumed and one passage with score 1/2. -/
theorem C3_witness :
    calculateConfidence c3WitnessState <
      calculateConfidence { c3WitnessState with repairCount := 0 } :=
  (C3_confidence c3WitnessState).2.2 (by decide) (by decide)

/-! ## C4: answer coercion with no rows available -/

/-- C4 counterexample: the claim says a float-hinted question with no
available rows returns a regex-extracted number rounded to 2 decimals; when
no rows are available because the execution FAILED, the float hint gets no
regex extraction at all - the raw answer text comes back (the regex branch of
the failure path exists only for the `int` hint). -/
theorem C4_counterexample :
    parseAnswer "roughly 45.67 dollars" "float"
        (some ⟨false, [], [], some "no such column: x", []⟩) =
      .ok (.vStr "roughly 45.67 dollars") ∧
    PyVal.vStr "roughly 45.67 dollars" ≠ floatRegexValue "roughly 45.67 dollars" := by
  refine ⟨rfl, ?_⟩
  have h : floatRegexValue "roughly 45.67 dollars" = .vFloat (4567 / 100) := rfl
  rw [h]
  intro hcon
  exact PyVal.noConfusion hcon

/-- C4 amended: when execution SUCCEEDED but returned zero rows, the numeric
hints are regex-extracted from the answer text (float rounded to 2 decimals
with fallback 0.0, int with fallback 0); when no successful result exists and
the answer is not parseable as JSON, only the `int` hint gets regex
extraction (fallback 14) - a float hint returns the raw answer text. -/
theorem C4_amended (ans : String) (r : ExecResult) :
    (r.success = true → r.data = [] →
      parseAnswer ans "float" (some r) = .ok (floatRegexValue ans) ∧
      parseAnswer ans "int" (some r) = .ok (intRegexValue ans 0)) ∧
    (r.success = false → jsonLoads ans = none →
      parseAnswer ans "float" (some r) = .ok (.vStr ans) ∧
      parseAnswer ans "int" (some r) = .ok (intRegexValue ans 14)) := by
  have e1 : (("float" : String) == "int") = false := by decide
  have e2 : pyContains "float" "list[" = false := by decide
  have e3 : hintIsObject "float" = false := by decide
  have e4 : (("int" : String) == "int") = true := by decide
  constructor
  · intro hs hd
    constructor
    · simp only [parseAnswer, parseAnswerSqlBlock, hs, hd, e1, e2, e3,
        if_true, if_false, Bool.false_eq_true, List.isEmpty_nil, Bool.not_true,
        floatRegexValue]
      cases hfa : pyFindallNum ans <;> simp [hfa]
    · simp only [parseAnswer, parseAnswerSqlBlock, hs, hd, e4,
        if_true, if_false, List.isEmpty_nil, Bool.not_true, intRegexValue]
      cases hfa : pyFindallInt ans <;> simp [hfa]
  · intro hs hj
    constructor
    · simp [parseAnswer, parseAnswerSqlBlock, hs, hj, e1]
    · simp only [parseAnswer, parseAnswerSqlBlock, hs, hj, e4, intRegexValue]
      cases hfa : pyFindallInt ans <;> simp [hfa]

/-- C4 witness: the amended claim at concrete inputs - a success with zero
rows regex-extracts and rounds for the float hint, while a failed execution
returns the raw text. -/
theorem C4_witness :
    parseAnswer "The value is 45.678 total" "float"
        (some ⟨true, [], ["v"], none, []⟩) =
      .ok (floatRegexValue "The value is 45.678 total") ∧
    parseAnswer "roughly 45.67 dollars" "float"
        (some ⟨false, [], [], some "no such column: x", []⟩) =
      .ok (.vStr "roughly 45.67 dollars") :=
  ⟨((C4_amended "The value is 45.678 total" ⟨true, [], ["v"], none, []⟩).1 rfl rfl).1,
   ((C4_amended "roughly 45.67 dollars"
      ⟨false, [], [], some "no such column: x", []⟩).2 rfl rfl).1⟩

/-! ## C7: the returned `sql` field on a route that skips generation -/

/-- C7: on a rag-routed run the returned `sql` field is Python `None`, not
the empty string: `final_state.get("sql_query", "")` returns the stored
`None` because the key is always present in the initial state, so the `""`
default is dead code. -/
theorem C7_rag_route_sql_none :
    (runAgent ragAgent "according to the product policy, what is covered?" "").toOption.map
      (fun res => res.sql) = some none := by decide

/-! ## C1: the bounded repair loop - trace-counting infrastructure -/

/-- A prefix of a concrete head survives any dynamic tail. -/
theorem startsWithStr_append_true (p pre suf : String)
    (h : p.data.isPrefixOf pre.data = true) :
    startsWithStr p (pre ++ suf) = true := by
  unfold startsWithStr
  rw [String.data_append]
  rw [List.isPrefixOf_iff_prefix] at h ⊢
  exact h.trans (List.prefix_append _ _)

/-- A text neither extending nor extended by the concrete head of a line is
not a prefix of the line, whatever its dynamic tail. -/
theorem startsWithStr_append_false (p pre suf : String)
    (h1 : p.data.isPrefixOf pre.data = false)
    (h2 : pre.data.isPrefixOf p.data = false) :
    startsWithStr p (pre ++ suf) = false := by
  unfold startsWithStr
  rw [String.data_append]
  by_contra hcon
  rw [Bool.not_eq_false, List.isPrefixOf_iff_prefix] at hcon
  rcases le_total p.data.length pre.data.length with hle | hle
  · have : p.data <+: pre.data :=
      List.prefix_of_prefix_length_le hcon (List.prefix_append _ _) hle
    rw [← List.isPrefixOf_iff_prefix, h1] at this
    exact Bool.false_ne_true this
  · have : pre.data <+: p.data :=
      List.prefix_of_prefix_length_le (List.prefix_append _ _) hcon hle
    rw [← List.isPrefixOf_iff_prefix, h2] at this
    exact Bool.false_ne_true this

/-- Counting through one appended trace line. -/
theorem countPre_addTrace (st : MState) (line p : String) :
    countPre (addTrace st line).trace p =
      countPre st.trace p + (if startsWithStr p line then 1 else 0) := by
  unfold addTrace countPre startsWithStr
  rw [List.countP_append]
  simp [List.countP_cons]

/-- The router node never adds entries matching a pattern foreign to its two
lines. -/
theorem routeNode_count (a : Agent) (st : MState) (p : String)
    (h1 : startsWithStr p "ROUTER: Classifying query type" = false)
    (h2 : ∀ s, startsWithStr p ("ROUTER: Route = " ++ s) = false) :
    countPre (routeNode a st).trace p = countPre st.trace p := by
  unfold routeNode
  simp [countPre_addTrace, h1, h2]

/-- The retriever node never adds entries matching a foreign pattern. -/
theorem retrieverNode_count (a : Agent) (st : MState) (p : String)
    (h1 : startsWithStr p "RETRIEVER: Fetching relevant documents" = false)
    (h2 : ∀ s, startsWithStr p ("RETRIEVER: Retrieved " ++ s) = false) :
    countPre (retrieverNode a st).trace p = countPre st.trace p := by
  unfold retrieverNode
  simp [countPre_addTrace, h1, String.append_assoc, h2]

/-- The planner node never adds entries matching a foreign pattern. -/
theorem plannerNode_count (a : Agent) (st : MState) (p : String)
    (h1 : startsWithStr p "PLANNER: Extracting constraints" = false)
    (h2 : ∀ s, startsWithStr p ("PLANNER: Constraints = " ++ s) = false) :
    countPre (plannerNode a st).trace p = countPre st.trace p := by
  unfold plannerNode
  simp [countPre_addTrace, h1, h2]

/-- The SQL-generation node never adds entries matching a foreign pattern. -/
theorem nlToSqlNode_count (a : Agent) (st : MState) (p : String)
    (h1 : startsWithStr p "NL→SQL: Generating SQL query" = false)
    (h2 : ∀ s, startsWithStr p ("NL→SQL: Generated query: " ++ s) = false) :
    countPre (nlToSqlNode a st).trace p = countPre st.trace p := by
  unfold nlToSqlNode
  simp [countPre_addTrace, h1, String.append_assoc, h2]

/-- Each executor visit adds exactly one execution entry. -/
theorem executorNode_count_exec (a : Agent) (st : MState) :
    countPre (executorNode a st).trace patExec = countPre st.trace patExec + 1 := by
  unfold executorNode
  dsimp only []
  split
  · simp [countPre_addTrace, String.append_assoc,
      startsWithStr_append_false patExec "EXECUTOR: Success! Got " _ (by decide) (by decide),
      show startsWithStr patExec "EXECUTOR: Running SQL query" = true from by decide]
  · simp [countPre_addTrace, String.append_assoc,
      startsWithStr_append_false patExec "EXECUTOR: Error - " _ (by decide) (by decide),
      show startsWithStr patExec "EXECUTOR: Running SQL query" = true from by decide]

/-- The executor adds no entries matching a foreign pattern. -/
theorem executorNode_count_other (a : Agent) (st : MState) (p : String)
    (h1 : startsWithStr p "EXECUTOR: Running SQL query" = false)
    (h2 : ∀ s, startsWithStr p ("EXECUTOR: Success! Got " ++ s) = false)
    (h3 : ∀ s, startsWithStr p ("EXECUTOR: Error - " ++ s) = false) :
    countPre (executorNode a st).trace p = countPre st.trace p := by
  unfold executorNode
  dsimp only []
  split
  · simp [countPre_addTrace, h1, String.append_assoc, h2]
  · simp [countPre_addTrace, h1, String.append_assoc, h3]

/-- The executor preserves the repair counter. -/
theorem executorNode_repairCount (a : Agent) (st : MState) :
    (executorNode a st).repairCount = st.repairCount := by
  unfold executorNode
  dsimp only []
  split <;> rfl

/-- The executor preserves the current query. -/
theorem repairNode_repairCount (a : Agent) (st : MState) :
    (repairNode a st).repairCount = st.repairCount + 1 := rfl

/-- Each repair visit adds exactly one attempt-marker entry. -/
theorem repairNode_count_attempt (a : Agent) (st : MState) :
    countPre (repairNode a st).trace patAttempt = countPre st.trace patAttempt + 1 := by
  unfold repairNode
  simp [countPre_addTrace, String.append_assoc,
    startsWithStr_append_true patAttempt "REPAIR: Attempting repair (attempt " _ (by decide),
    startsWithStr_append_false patAttempt "REPAIR: New query: " _ (by decide) (by decide)]

/-- Each repair visit adds exactly two REPAIR-prefixed entries. -/
theorem repairNode_count_repair (a : Agent) (st : MState) :
    countPre (repairNode a st).trace patRepair = countPre st.trace patRepair + 2 := by
  unfold repairNode
  simp [countPre_addTrace, String.append_assoc,
    startsWithStr_append_true patRepair "REPAIR: Attempting repair (attempt " _ (by decide),
    startsWithStr_append_true patRepair "REPAIR: New query: " _ (by decide)]

/-- The repair node adds no entries matching a foreign pattern. -/
theorem repairNode_count_other (a : Agent) (st : MState) (p : String)
    (h1 : ∀ s, startsWithStr p ("REPAIR: Attempting repair (attempt " ++ s) = false)
    (h2 : ∀ s, startsWithStr p ("REPAIR: New query: " ++ s) = false) :
    countPre (repairNode a st).trace p = countPre st.trace p := by
  unfold repairNode
  simp [countPre_addTrace, String.append_assoc, h1, h2]

/-- A successful synthesizer call appends exactly its two SYNTHESIZER lines,
preserves the repair counter, and stores a final answer. -/
theorem synthesizerNode_ok (a : Agent) (st st' : MState)
    (h : synthesizerNode a st = .ok st') :
    (∃ s, st'.trace = st.trace ++ ["SYNTHESIZER: Generating final answer",
       "SYNTHESIZER: Final answer = " ++ s]) ∧
    st'.repairCount = st.repairCount ∧
    st'.finalAnswer.isSome = true := by
  unfold synthesizerNode at h
  dsimp only [] at h
  split at h
  · simp at h
  · rename_i fa heq
    injection h with h'
    subst h'
    refine ⟨⟨pyStr fa, ?_⟩, rfl, rfl⟩
    unfold addTrace
    simp

/-- The synthesizer adds no entries matching a foreign pattern. -/
theorem synthesizerNode_count_other (a : Agent) (st st' : MState)
    (h : synthesizerNode a st = .ok st') (p : String)
    (h1 : startsWithStr p "SYNTHESIZER: Generating final answer" = false)
    (h2 : ∀ s, startsWithStr p ("SYNTHESIZER: Final answer = " ++ s) = false) :
    countPre st'.trace p = countPre st.trace p := by
  obtain ⟨⟨s, htr⟩, _, _⟩ := synthesizerNode_ok a st st' h
  unfold startsWithStr at h1 h2
  have hz : List.countP (fun t => p.data.isPrefixOf t.data)
      ["SYNTHESIZER: Generating final answer", "SYNTHESIZER: Final answer = " ++ s] = 0 := by
    apply List.countP_eq_zero.mpr
    intro x hx
    rcases List.mem_cons.mp hx with rfl | hx2
    · intro hcon
      have hcon2 : p.data.isPrefixOf "SYNTHESIZER: Generating final answer".data = true := hcon
      rw [h1] at hcon2
      exact Bool.false_ne_true hcon2
    · rcases List.mem_cons.mp hx2 with rfl | hx3
      · intro hcon
        have hcon2 : p.data.isPrefixOf ("SYNTHESIZER: Final answer = " ++ s).data = true := hcon
        rw [h2 s] at hcon2
        exact Bool.false_ne_true hcon2
      · exact absurd hx3 (List.not_mem_nil x)
  rw [htr]
  unfold countPre
  rw [List.countP_append, hz, add_zero]

/-- The synthesizer records at least one SYNTHESIZER entry. -/
theorem synthesizerNode_count_synth (a : Agent) (st st' : MState)
    (h : synthesizerNode a st = .ok st') :
    1 ≤ countPre st'.trace patSynth := by
  obtain ⟨⟨s, htr⟩, _, _⟩ := synthesizerNode_ok a st st' h
  rw [htr]
  unfold countPre
  rw [List.countP_append]
  simp only [List.countP_cons, List.countP_nil,
    show (patSynth.data.isPrefixOf "SYNTHESIZER: Generating final answer".data) = true
      from by decide, if_true]
  omega

/-- A `repair` decision implies the repair budget is not exhausted. -/
theorem afterExec_repair_budget (st : MState)
    (h : (afterExecutorDecision st == "repair") = true) : st.repairCount < 2 := by
  unfold afterExecutorDecision at h
  split_ifs at h with d1 d2
  · simp at h
  · exact d2
  · simp at h

/-- The executor/repair loop, run to a successful synthesis, performs at
most `3 - repair_count` further executions, increments the repair counter
once per attempt-marker entry, appends exactly two REPAIR-prefixed entries
per repair, never exceeds the budget of 2, and always ends in synthesis with
a final answer. -/
theorem execLoopF_ok_counts (a : Agent) : ∀ (f : Nat) (st st' : MState),
    execLoopF a f st = .ok st' → st.repairCount ≤ 2 →
    countPre st'.trace patExec ≤ countPre st.trace patExec + (3 - st.repairCount) ∧
    countPre st'.trace patAttempt + st.repairCount =
      countPre st.trace patAttempt + st'.repairCount ∧
    countPre st'.trace patRepair + 2 * st.repairCount =
      countPre st.trace patRepair + 2 * st'.repairCount ∧
    st'.repairCount ≤ 2 ∧
    1 ≤ countPre st'.trace patSynth ∧
    st'.finalAnswer.isSome = true := by
  intro f
  induction f with
  | zero =>
    intro st st' h hc
    exact absurd h (by simp [execLoopF])
  | succ f ih =>
    intro st st' h hc
    have hstep : execLoopF a (f + 1) st =
        (if afterExecutorDecision (executorNode a st) == "success" then
          synthesizerNode a (executorNode a st)
        else if afterExecutorDecision (executorNode a st) == "repair" then
          execLoopF a f (repairNode a (executorNode a st))
        else synthesizerNode a (executorNode a st)) := rfl
    rw [hstep] at h
    have hex_rc : (executorNode a st).repairCount = st.repairCount :=
      executorNode_repairCount a st
    have hex_exec : countPre (executorNode a st).trace patExec =
        countPre st.trace patExec + 1 := executorNode_count_exec a st
    have hex_att : countPre (executorNode a st).trace patAttempt =
        countPre st.trace patAttempt :=
      executorNode_count_other a st patAttempt (by decide)
        (fun s => startsWithStr_append_false _ _ _ (by decide) (by decide))
        (fun s => startsWithStr_append_false _ _ _ (by decide) (by decide))
    have hex_rep : countPre (executorNode a st).trace patRepair =
        countPre st.trace patRepair :=
      executorNode_count_other a st patRepair (by decide)
        (fun s => startsWithStr_append_false _ _ _ (by decide) (by decide))
        (fun s => startsWithStr_append_false _ _ _ (by decide) (by decide))
    have hex_syn : countPre (executorNode a st).trace patSynth =
        countPre st.trace patSynth :=
      executorNode_count_other a st patSynth (by decide)
        (fun s => startsWithStr_append_false _ _ _ (by decide) (by decide))
        (fun s => startsWithStr_append_false _ _ _ (by decide) (by decide))
    by_cases h1 : (afterExecutorDecision (executorNode a st) == "success") = true
    · rw [if_pos h1] at h
      obtain ⟨⟨s2, htr⟩, hrc, hfa⟩ := synthesizerNode_ok a _ st' h
      have cE := synthesizerNode_count_other a _ st' h patExec (by decide)
        (fun s => startsWithStr_append_false _ _ _ (by decide) (by decide))
      have cA := synthesizerNode_count_other a _ st' h patAttempt (by decide)
        (fun s => startsWithStr_append_false _ _ _ (by decide) (by decide))
      have cR := synthesizerNode_count_other a _ st' h patRepair (by decide)
        (fun s => startsWithStr_append_false _ _ _ (by decide) (by decide))
      have cS := synthesizerNode_count_synth a _ st' h
      refine ⟨?_, ?_, ?_, ?_, cS, hfa⟩ <;> omega
    · rw [if_neg h1] at h
      by_cases h2 : (afterExecutorDecision (executorNode a st) == "repair") = true
      · rw [if_pos h2] at h
        have hlt : (executorNode a st).repairCount < 2 := afterExec_repair_budget _ h2
        have hrn_rc : (repairNode a (executorNode a st)).repairCount =
            (executorNode a st).repairCount + 1 := repairNode_repairCount a _
        have hrn_att : countPre (repairNode a (executorNode a st)).trace patAttempt =
            countPre (executorNode a st).trace patAttempt + 1 :=
          repairNode_count_attempt a _
        have hrn_rep : countPre (repairNode a (executorNode a st)).trace patRepair =
            countPre (executorNode a st).trace patRepair + 2 :=
          repairNode_count_repair a _
        have hrn_exec : countPre (repairNode a (executorNode a st)).trace patExec =
            countPre (executorNode a st).trace patExec :=
          repairNode_count_other a _ patExec
            (fun s => startsWithStr_append_false _ _ _ (by decide) (by decide))
            (fun s => startsWithStr_append_false _ _ _ (by decide) (by decide))
        have hrn_syn : countPre (repairNode a (executorNode a st)).trace patSynth =
            countPre (executorNode a st).trace patSynth :=
          repairNode_count_other a _ patSynth
            (fun s => startsWithStr_append_false _ _ _ (by decide) (by decide))
            (fun s => startsWithStr_append_false _ _ _ (by decide) (by decide))
        obtain ⟨c1, c2, c3, c4, c5, c6⟩ :=
          ih (repairNode a (executorNode a st)) st' h (by omega)
        refine ⟨?_, ?_, ?_, c4, c5, c6⟩ <;> omega
      · rw [if_neg h2] at h
        obtain ⟨⟨s2, htr⟩, hrc, hfa⟩ := synthesizerNode_ok a _ st' h
        have cE := synthesizerNode_count_other a _ st' h patExec (by decide)
          (fun s => startsWithStr_append_false _ _ _ (by decide) (by decide))
        have cA := synthesizerNode_count_other a _ st' h patAttempt (by decide)
          (fun s => startsWithStr_append_false _ _ _ (by decide) (by decide))
        have cR := synthesizerNode_count_other a _ st' h patRepair (by decide)
          (fun s => startsWithStr_append_false _ _ _ (by decide) (by decide))
        have cS := synthesizerNode_count_synth a _ st' h
        refine ⟨?_, ?_, ?_, ?_, cS, hfa⟩ <;> omega

/-- The state reaching the planner has an untouched trace with respect to a
pattern foreign to the router, retriever and planner lines. -/
theorem preloop_counts (a : Agent) (q fh : String) (p : String)
    (hr1 : startsWithStr p "ROUTER: Classifying query type" = false)
    (hr2 : ∀ s, startsWithStr p ("ROUTER: Route = " ++ s) = false)
    (hv1 : startsWithStr p "RETRIEVER: Fetching relevant documents" = false)
    (hv2 : ∀ s, startsWithStr p ("RETRIEVER: Retrieved " ++ s) = false)
    (hp1 : startsWithStr p "PLANNER: Extracting constraints" = false)
    (hp2 : ∀ s, startsWithStr p ("PLANNER: Constraints = " ++ s) = false) :
    countPre (if routeDecision (routeNode a (initialState q fh)) == "sql" then
        plannerNode a (routeNode a (initialState q fh))
      else plannerNode a (retrieverNode a (routeNode a (initialState q fh)))).trace p = 0 := by
  split
  · rw [plannerNode_count a _ p hp1 hp2, routeNode_count a _ p hr1 hr2]
    rfl
  · rw [plannerNode_count a _ p hp1 hp2, retrieverNode_count a _ p hv1 hv2,
      routeNode_count a _ p hr1 hr2]
    rfl

/-- No repair is consumed before the executor/repair loop. -/
theorem preloop_repairCount (a : Agent) (q fh : String) :
    (if routeDecision (routeNode a (initialState q fh)) == "sql" then
        plannerNode a (routeNode a (initialState q fh))
      else plannerNode a (retrieverNode a (routeNode a (initialState q fh)))).repairCount
      = 0 := by
  split <;> rfl

/-- C1 amended: on every run reaching a result, at most 3 query executions
occur (at most 2 REPAIR transitions), the repair counter equals the number
of attempt-marker trace entries (it increments exactly once per REPAIR
transition), each REPAIR transition appends exactly TWO REPAIR-prefixed
trace entries (so up to 4 such entries, not 2 - only the attempt markers are
bounded by 2), and the workflow always reaches synthesis with a final
answer, also when repairs are exhausted. -/
theorem C1_amended (a : Agent) (q fh : String) (st' : MState)
    (h : runState a q fh = .ok st') :
    countPre st'.trace patExec ≤ 3 ∧
    countPre st'.trace patAttempt ≤ 2 ∧
    st'.repairCount = countPre st'.trace patAttempt ∧
    countPre st'.trace patRepair = 2 * countPre st'.trace patAttempt ∧
    1 ≤ countPre st'.trace patSynth ∧
    st'.finalAnswer.isSome = true := by
  unfold runState at h
  dsimp only [] at h
  set st2 := (if routeDecision (routeNode a (initialState q fh)) == "sql" then
      plannerNode a (routeNode a (initialState q fh))
    else plannerNode a (retrieverNode a (routeNode a (initialState q fh)))) with hst2
  have hbE : countPre st2.trace patExec = 0 := preloop_counts a q fh patExec
    (by decide) (fun s => startsWithStr_append_false _ _ _ (by decide) (by decide))
    (by decide) (fun s => startsWithStr_append_false _ _ _ (by decide) (by decide))
    (by decide) (fun s => startsWithStr_append_false _ _ _ (by decide) (by decide))
  have hbA : countPre st2.trace patAttempt = 0 := preloop_counts a q fh patAttempt
    (by decide) (fun s => startsWithStr_append_false _ _ _ (by decide) (by decide))
    (by decide) (fun s => startsWithStr_append_false _ _ _ (by decide) (by decide))
    (by decide) (fun s => startsWithStr_append_false _ _ _ (by decide) (by decide))
  have hbR : countPre st2.trace patRepair = 0 := preloop_counts a q fh patRepair
    (by decide) (fun s => startsWithStr_append_false _ _ _ (by decide) (by decide))
    (by decide) (fun s => startsWithStr_append_false _ _ _ (by decide) (by decide))
    (by decide) (fun s => startsWithStr_append_false _ _ _ (by decide) (by decide))
  have hbC : st2.repairCount = 0 := preloop_repairCount a q fh
  by_cases hrag : (afterPlannerDecision st2 == "rag_only") = true
  · rw [if_pos hrag] at h
    obtain ⟨⟨s2, htr⟩, hrc, hfa⟩ := synthesizerNode_ok a st2 st' h
    have cE := synthesizerNode_count_other a st2 st' h patExec (by decide)
      (fun s => startsWithStr_append_false _ _ _ (by decide) (by decide))
    have cA := synthesizerNode_count_other a st2 st' h patAttempt (by decide)
      (fun s => startsWithStr_append_false _ _ _ (by decide) (by decide))
    have cR := synthesizerNode_count_other a st2 st' h patRepair (by decide)
      (fun s => startsWithStr_append_false _ _ _ (by decide) (by decide))
    have cS := synthesizerNode_count_synth a st2 st' h
    refine ⟨?_, ?_, ?_, ?_, cS, hfa⟩ <;> omega
  · rw [if_neg hrag] at h
    unfold execLoop at h
    have hnC : (nlToSqlNode a st2).repairCount = st2.repairCount := rfl
    have hnE : countPre (nlToSqlNode a st2).trace patExec = 0 := by
      rw [nlToSqlNode_count a st2 patExec (by decide)
        (fun s => startsWithStr_append_false _ _ _ (by decide) (by decide))]
      exact hbE
    have hnA : countPre (nlToSqlNode a st2).trace patAttempt = 0 := by
      rw [nlToSqlNode_count a st2 patAttempt (by decide)
        (fun s => startsWithStr_append_false _ _ _ (by decide) (by decide))]
      exact hbA
    have hnR : countPre (nlToSqlNode a st2).trace patRepair = 0 := by
      rw [nlToSqlNode_count a st2 patRepair (by decide)
        (fun s => startsWithStr_append_false _ _ _ (by decide) (by decide))]
      exact hbR
    obtain ⟨c1, c2, c3, c4, c5, c6⟩ :=
      execLoopF_ok_counts a _ (nlToSqlNode a st2) st' h (by omega)
    refine ⟨?_, ?_, ?_, ?_, c5, c6⟩ <;> omega

/-- C1 counterexample: a concrete run whose engine always fails performs 2
repair transitions, and its trace then holds 4 entries prefixed `REPAIR`
(each transition logs both an attempt marker and the new query), refuting
the bound of 2 REPAIR entries when every REPAIR-prefixed entry is counted. -/
theorem C1_counterexample :
    (runAgent failingAgent "total revenue in 1997" "").toOption.map
      (fun r => countPre r.trace patRepair) = some 4 := by decide

/-- C1 witness: the amended bounds at the concrete exhausted run. -/
theorem C1_witness :
    (match runState failingAgent "total revenue in 1997" "" with
     | .ok st => countPre st.trace patExec ≤ 3 ∧
         countPre st.trace patAttempt ≤ 2 ∧
         st.repairCount = countPre st.trace patAttempt ∧
         countPre st.trace patRepair = 2 * countPre st.trace patAttempt
     | .error _ => False) := by
  cases h : runState failingAgent "total revenue in 1997" "" with
  | error e =>
    have hok : (runState failingAgent "total revenue in 1997" "").isOk = true := by decide
    rw [h] at hok
    simp [Except.isOk, Except.toBool] at hok
  | ok st =>
    obtain ⟨c1, c2, c3, c4, _, _⟩ :=
      C1_amended failingAgent "total revenue in 1997" "" st h
    exact ⟨c1, c2, c3, c4⟩

end AIDSpy
